import Mathlib

/-!
Shallow embedding of the craneboy Game Boy emulator core, with proofs
checking the natural-language specification against the source.

Machine integers are modelled as `Nat` with explicit masking / `% 2^w`
where the source relies on wrapping; fallible operations (Rust index
panics, division by zero, overflowing `+`/`-` on unsigned types) are
modelled with `Option`.
-/

namespace Craneboy

/-! ## Registers (src/registers.rs) -/

/-- Boot modes (src/gb_mode.rs). -/
inductive GbMode where
  | Classic
  | ColorAsClassic
  | Color
deriving DecidableEq, Repr

/-- The CPU register file.  Each 8-bit register is a `Nat` kept below 256
by the operations; `f` stores the flag byte (bitflags `CpuFlags` whose
known-bits mask is `!0`, i.e. all 8 bits). -/
structure Registers where
  a : Nat
  f : Nat
  b : Nat
  c : Nat
  d : Nat
  e : Nat
  h : Nat
  l : Nat
  pc : Nat
  sp : Nat
deriving DecidableEq, Repr

namespace Registers

/-- `Registers::new`. -/
def new : GbMode → Registers
  | .Classic => ⟨0x01, 0xB0, 0x00, 0x13, 0x00, 0xD8, 0x01, 0x4D, 0x0100, 0xFFFE⟩
  | .ColorAsClassic => ⟨0x11, 0x80, 0x00, 0x00, 0x00, 0x08, 0x00, 0x7C, 0x0100, 0xFFFE⟩
  | .Color => ⟨0x11, 0x80, 0x00, 0x00, 0xFF, 0x56, 0x00, 0x0D, 0x0100, 0xFFFE⟩

/-- `Registers::af`: `((a as u16) << 8) | ((f.bits() & 0xF0) as u16)`. -/
def af (r : Registers) : Nat :=
  (r.a <<< 8) ||| (r.f &&& 0xF0)

/-- `Registers::hl`. -/
def hl (r : Registers) : Nat :=
  (r.h <<< 8) ||| r.l

/-- `Registers::set_hl`. -/
def set_hl (r : Registers) (value : Nat) : Registers :=
  { r with h := (value >>> 8) % 256, l := value &&& 0x00FF }

/-- `Registers::set_af`: `f = CpuFlags::from_bits_truncate((value & 0x00F0) as u8)`;
with the bitflags declaring `const _ = !0` every bit is a known bit, so the
truncation keeps `value & 0x00F0` as is. -/
def set_af (r : Registers) (value : Nat) : Registers :=
  { r with a := (value >>> 8) % 256, f := value &&& 0x00F0 }

/-- `Registers::set_bc`. -/
def set_bc (r : Registers) (value : Nat) : Registers :=
  { r with b := (value >>> 8) % 256, c := value &&& 0x00FF }

/-- `Registers::set_de`. -/
def set_de (r : Registers) (value : Nat) : Registers :=
  { r with d := (value >>> 8) % 256, e := value &&& 0x00FF }

/-- `Registers::hld`: returns the current HL and stores `res - 1`.  The
subtraction is unchecked `u16` arithmetic, so `HL = 0` overflows: modelled
as `none`. -/
def hld (r : Registers) : Option (Nat × Registers) :=
  let res := r.hl
  if res = 0 then none else some (res, r.set_hl (res - 1))

/-- `Registers::hli`: returns the current HL and stores `res + 1`.  The
addition is unchecked `u16` arithmetic, so `HL = 0xFFFF` overflows:
modelled as `none`. -/
def hli (r : Registers) : Option (Nat × Registers) :=
  let res := r.hl
  if res = 0xFFFF then none else some (res, r.set_hl (res + 1))

/-- `Registers::flag`: set or clear flag bits, then mask with
`CpuFlags::all()` (which is `0xFF` because of the `const _ = !0` member). -/
def flag (r : Registers) (mask : Nat) (set : Bool) : Registers :=
  let f' := if set then r.f ||| mask else r.f &&& (0xFF ^^^ (mask &&& 0xFF))
  { r with f := f' &&& 0xFF }

end Registers

/-! ## Header checksum (src/mbc/mod.rs) -/

/-- One step of the `check_checksum` fold:
`value = value.wrapping_sub(data[i]).wrapping_sub(1)` on `u8`.
For a byte `b < 256` this is `(value + 255 - b) % 256`. -/
def checksumStep (value b : Nat) : Nat :=
  (value + 256 - (b % 256) + 255) % 256

/-- `check_checksum` (src/mbc/mod.rs): folds `checksumStep` over
`data[0x134..0x14D]` starting from 0 and compares with `data[0x14D]`.
Out-of-range indexing would panic in Rust; callers guarantee
`data.len() >= 0x150`, and `getD _ 0` below agrees with the source on
that domain. -/
def check_checksum (data : List Nat) : Bool :=
  let value := (List.range' 0x134 0x19).foldl (fun v i => checksumStep v (data.getD i 0)) 0
  data.getD 0x14D 0 == value

/-- Sum of the checksummed header range `[0x134, 0x14D)`. -/
def headerSum (data : List Nat) : Nat :=
  ((List.range' 0x134 0x19).map (fun i => data.getD i 0)).sum

/-! ## Keypad (src/keypad.rs) -/

inductive KeypadKey where
  | Right | Left | Up | Down | A | B | Select | Start
deriving DecidableEq, Repr

/-- The keypad latch (src/keypad.rs). -/
structure Keypad where
  row0 : Nat
  row1 : Nat
  data : Nat
  interrupt : Nat
deriving DecidableEq, Repr

namespace Keypad

/-- `Keypad::new`. -/
def new : Keypad := ⟨0x0F, 0x0F, 0xFF, 0⟩

/-- `Keypad::rb`. -/
def rb (k : Keypad) : Nat := k.data

/-- `Keypad::update`. -/
def update (k : Keypad) : Keypad :=
  let old_values := k.data &&& 0xF
  let new_values := 0xF
  let new_values := if k.data &&& 0x10 = 0 then new_values &&& k.row0 else new_values
  let new_values := if k.data &&& 0x20 = 0 then new_values &&& k.row1 else new_values
  let intr := if old_values = 0xF ∧ new_values ≠ 0xF then k.interrupt ||| 0x10 else k.interrupt
  { k with interrupt := intr, data := (k.data &&& 0xF0) ||| new_values }

/-- `Keypad::wb`. -/
def wb (k : Keypad) (value : Nat) : Keypad :=
  update { k with data := (k.data &&& 0xCF) ||| (value &&& 0x30) }

/-- `Keypad::keydown`. -/
def keydown (k : Keypad) (key : KeypadKey) : Keypad :=
  let k := match key with
    | .Right => { k with row0 := k.row0 &&& (0xFF ^^^ (1 <<< 0)) }
    | .Left => { k with row0 := k.row0 &&& (0xFF ^^^ (1 <<< 1)) }
    | .Up => { k with row0 := k.row0 &&& (0xFF ^^^ (1 <<< 2)) }
    | .Down => { k with row0 := k.row0 &&& (0xFF ^^^ (1 <<< 3)) }
    | .A => { k with row1 := k.row1 &&& (0xFF ^^^ (1 <<< 0)) }
    | .B => { k with row1 := k.row1 &&& (0xFF ^^^ (1 <<< 1)) }
    | .Select => { k with row1 := k.row1 &&& (0xFF ^^^ (1 <<< 2)) }
    | .Start => { k with row1 := k.row1 &&& (0xFF ^^^ (1 <<< 3)) }
  update k

/-- `Keypad::keyup`. -/
def keyup (k : Keypad) (key : KeypadKey) : Keypad :=
  let k := match key with
    | .Right => { k with row0 := k.row0 ||| (1 <<< 0) }
    | .Left => { k with row0 := k.row0 ||| (1 <<< 1) }
    | .Up => { k with row0 := k.row0 ||| (1 <<< 2) }
    | .Down => { k with row0 := k.row0 ||| (1 <<< 3) }
    | .A => { k with row1 := k.row1 ||| (1 <<< 0) }
    | .B => { k with row1 := k.row1 ||| (1 <<< 1) }
    | .Select => { k with row1 := k.row1 ||| (1 <<< 2) }
    | .Start => { k with row1 := k.row1 ||| (1 <<< 3) }
  update k

end Keypad

/-! ## MBC helpers (src/mbc/mod.rs) -/

/-- `ram_banks` (src/mbc/mod.rs). -/
def ram_banks : Nat → Nat
  | 1 | 2 => 1
  | 3 => 4
  | 4 => 16
  | 5 => 8
  | _ => 0

/-- `rom_banks` (src/mbc/mod.rs). -/
def rom_banks (v : Nat) : Nat :=
  if v ≤ 8 then 2 <<< v else 0

/-! ## MBC0 (src/mbc/mbc0.rs) -/

/-- MBC0: the cartridge is just its ROM image. -/
structure MBC0 where
  rom : List Nat
deriving DecidableEq, Repr

namespace MBC0

/-- `MBC0::new` (always succeeds). -/
def new (data : List Nat) : MBC0 := ⟨data⟩

/-- `MBC0::read_rom`: `self.rom[a as usize]` — an unchecked index, which
panics when `a` is at or past the ROM length; modelled as `none` there. -/
def read_rom (m : MBC0) (a : Nat) : Option Nat :=
  m.rom.get? a

end MBC0

/-! ## MBC1 (src/mbc/mbc1.rs) -/

structure MBC1 where
  rom : List Nat
  ram : List Nat
  ram_on : Bool
  ram_updated : Bool
  banking_mode : Nat
  rom_bank : Nat
  ram_bank : Nat
  has_battery : Bool
  rom_banks : Nat
  ram_banks : Nat
deriving DecidableEq, Repr

namespace MBC1

/-- `MBC1::new` (always returns `Ok`). -/
def new (data : List Nat) : MBC1 :=
  let hb_rb : Bool × Nat :=
    match data.getD 0x147 0 with
    | 0x02 => (false, Craneboy.ram_banks (data.getD 0x149 0))
    | 0x03 => (true, Craneboy.ram_banks (data.getD 0x149 0))
    | _ => (false, 0)
  let rb := Craneboy.rom_banks (data.getD 0x148 0)
  { rom := data
    ram := List.replicate (hb_rb.2 * 0x2000) 0
    ram_on := false
    banking_mode := 0
    rom_bank := 1
    ram_bank := 0
    ram_updated := false
    has_battery := hb_rb.1
    rom_banks := rb
    ram_banks := hb_rb.2 }

/-- `MBC1::read_rom`: bank selection then `rom.get(idx).unwrap_or(0xFF)`. -/
def read_rom (m : MBC1) (a : Nat) : Nat :=
  let bank :=
    if a < 0x4000 then
      if m.banking_mode = 0 then 0 else m.rom_bank &&& 0xE0
    else m.rom_bank
  let idx := (bank * 0x4000) ||| (a &&& 0x3FFF)
  m.rom.getD idx 0xFF

/-- `MBC1::write_rom`.  The `% self.rom_banks` in the 0x2000–0x3FFF arm and
`% (self.rom_banks >> 5)` in the 0x4000–0x5FFF arm divide by zero (a Rust
panic) when the respective divisor is zero: modelled as `none`.  The final
`_ => panic!` arm (addresses ≥ 0x8000, never dispatched by the MMU) is also
`none`. -/
def write_rom (m : MBC1) (a v : Nat) : Option MBC1 :=
  if a ≤ 0x1FFF then
    some { m with ram_on := v &&& 0xF = 0xA }
  else if a ≤ 0x3FFF then
    let lower_bits := if v &&& 0x1F = 0 then 1 else v &&& 0x1F
    if m.rom_banks = 0 then none
    else some { m with rom_bank := ((m.rom_bank &&& 0x60) ||| lower_bits) % m.rom_banks }
  else if a ≤ 0x5FFF then
    if m.rom_banks > 0x20 ∧ m.rom_banks >>> 5 = 0 then none
    else
      let m := if m.rom_banks > 0x20 then
          { m with rom_bank := (m.rom_bank &&& 0x1F) ||| (((v &&& 0x03) % (m.rom_banks >>> 5)) <<< 5) }
        else m
      let m := if m.ram_banks > 1 then { m with ram_bank := v &&& 0x03 } else m
      some m
  else if a ≤ 0x7FFF then
    some { m with banking_mode := v &&& 0x01 }
  else none

end MBC1

/-! ## MBC5 (src/mbc/mbc5.rs) -/

structure MBC5 where
  rom : List Nat
  ram : List Nat
  rom_bank : Nat
  ram_bank : Nat
  ram_on : Bool
  ram_updated : Bool
  has_battery : Bool
  rom_banks : Nat
  ram_banks : Nat
deriving DecidableEq, Repr

namespace MBC5

/-- `MBC5::new` (always returns `Ok`). -/
def new (data : List Nat) : MBC5 :=
  let subtype := data.getD 0x147 0
  let hb : Bool := subtype = 0x1B ∨ subtype = 0x1E
  let rbk :=
    if subtype = 0x1A ∨ subtype = 0x1B ∨ subtype = 0x1D ∨ subtype = 0x1E then
      Craneboy.ram_banks (data.getD 0x149 0)
    else 0
  { rom := data
    ram := List.replicate (rbk * 0x2000) 0
    rom_bank := 1
    ram_bank := 0
    ram_updated := false
    ram_on := false
    has_battery := hb
    rom_banks := Craneboy.rom_banks (data.getD 0x148 0)
    ram_banks := rbk }

/-- `MBC5::read_rom` — uses `rom.get(idx).unwrap_or(0)`, total. -/
def read_rom (m : MBC5) (a : Nat) : Nat :=
  let idx := if a < 0x4000 then a else (m.rom_bank * 0x4000) ||| (a &&& 0x3FFF)
  m.rom.getD idx 0

/-- `MBC5::write_rom`.  The arms at 0x2000–0x2FFF and 0x3000–0x3FFF take
`% self.rom_banks`, and the arm at 0x4000–0x5FFF takes `% self.ram_banks`:
each is a division by zero (a Rust panic) when the divisor is zero, modelled
as `none`; likewise the `_ => panic!` arm for addresses ≥ 0x8000. -/
def write_rom (m : MBC5) (a v : Nat) : Option MBC5 :=
  if a ≤ 0x1FFF then
    some { m with ram_on := v &&& 0x0F = 0x0A }
  else if a ≤ 0x2FFF then
    if m.rom_banks = 0 then none
    else some { m with rom_bank := (m.rom_bank &&& 0x100) ||| (v % m.rom_banks) }
  else if a ≤ 0x3FFF then
    if m.rom_banks = 0 then none
    else some { m with rom_bank := ((m.rom_bank &&& 0x0FF) ||| ((v &&& 0x1) <<< 8)) % m.rom_banks }
  else if a ≤ 0x5FFF then
    if m.ram_banks = 0 then none
    else some { m with ram_bank := (v &&& 0x0F) % m.ram_banks }
  else if a ≤ 0x7FFF then
    some m
  else none

end MBC5

/-! ## Theorems -/

/-- C3 counterexample: from a fresh keypad, after `keydown(Right)` and
`wb(0xFF00, 0x10)`, `rb(0xFF00)` returns 0xDF, not the claimed 0xCE (the
row-select bits are active-low, so writing 0x10 deselects the direction
row). -/
theorem c3_counterexample :
    ¬(Keypad.rb (Keypad.wb (Keypad.keydown Keypad.new .Right) 0x10) = 0xCE) := by
  decide

/-- C3 (amended): starting from a freshly constructed keypad, after
`keydown(Right)` and then `wb(0xFF00, 0x10)`, `rb(0xFF00)` returns 0xDF
(direction row deselected — selection is active-low — so no press is
visible); after a further `wb(0xFF00, 0x20)`, `rb(0xFF00)` returns 0xEE
(direction row selected, bit 0 cleared by the pressed Right key). -/
theorem c3_keypad_direction_row :
    Keypad.rb (Keypad.wb (Keypad.keydown Keypad.new .Right) 0x10) = 0xDF ∧
    Keypad.rb (Keypad.wb (Keypad.wb (Keypad.keydown Keypad.new .Right) 0x10) 0x20) = 0xEE := by
  decide

/-- C8: for every register-file state (in particular every state reachable
through construction, `flag`, `set_af` and the other setters), the low
nibble of `af()` is zero: `af` masks the flag byte with 0xF0 on read. -/
theorem c8_af_low_nibble (r : Registers) : r.af &&& 0x000F = 0 := by
  show ((r.a <<< 8) ||| (r.f &&& 0xF0)) &&& 0xF = 0
  have hd : ((r.a <<< 8) ||| (r.f &&& 0xF0)) &&& 0xF
      = ((r.a <<< 8) &&& 0xF) ||| ((r.f &&& 0xF0) &&& 0xF) :=
    Nat.and_distrib_right _ _ _
  have h1 : (r.a <<< 8) &&& 0xF = 0 := by
    rw [Nat.and_pow_two_sub_one_eq_mod _ 4, Nat.shiftLeft_eq]
    omega
  have h2 : (r.f &&& 0xF0) &&& 0xF = 0 := by
    rw [Nat.and_assoc, show (240 &&& 15 : Nat) = 0 from rfl, Nat.and_zero]
  rw [hd, h1, h2]
  rfl

/-- C9: `hld`/`hli` return the current HL and store HL∓1, but with
unchecked `u16` arithmetic: they behave as stated exactly when HL ≥ 1
(`hld`) resp. HL ≤ 0xFFFE (`hli`); at HL = 0 (`hld`) or HL = 0xFFFF
(`hli`) the arithmetic overflows (modelled as `none`) instead of
wrapping. -/
theorem c9_hld_hli (r : Registers) :
    (1 ≤ r.hl → r.hld = some (r.hl, r.set_hl (r.hl - 1))) ∧
    (r.hl = 0 → r.hld = none) ∧
    (r.hl ≤ 0xFFFE → r.hli = some (r.hl, r.set_hl (r.hl + 1))) ∧
    (r.hl = 0xFFFF → r.hli = none) := by
  refine ⟨fun h1 => ?_, fun h2 => ?_, fun h3 => ?_, fun h4 => ?_⟩ <;>
    simp [Registers.hld, Registers.hli] <;> omega

/-- C9 witness: the theorem applied at HL = 0x1234 (from
`set_hl` on the Classic-mode reset state). -/
theorem c9_witness :
    (Registers.set_hl (Registers.new .Classic) 0x1234).hld =
      some (0x1234, Registers.set_hl (Registers.set_hl (Registers.new .Classic) 0x1234) 0x1233) ∧
    (Registers.set_hl (Registers.new .Classic) 0x1234).hli =
      some (0x1234, Registers.set_hl (Registers.set_hl (Registers.new .Classic) 0x1234) 0x1235) := by
  have h := c9_hld_hli (Registers.set_hl (Registers.new .Classic) 0x1234)
  have hl : (Registers.set_hl (Registers.new .Classic) 0x1234).hl = 0x1234 := by decide
  refine ⟨?_, ?_⟩
  · have := h.1 (by rw [hl]; omega)
    rwa [hl] at this
  · have := h.2.2.1 (by rw [hl]; omega)
    rwa [hl] at this

/-- A 0x150-byte image whose cartridge-type byte 0x147 is 0x19 (MBC5, no
RAM); `MBC5::new` accepts it with `ram_banks = 0`. -/
def mbc5NoRamImage : List Nat := (List.replicate 0x150 0).set 0x147 0x19

/-- C2 fails on the code: runtime bus accesses CAN fail.  For the
successfully constructed MBC5 cartridge `mbc5NoRamImage` (zero RAM banks),
`write_rom(0x4000, 0)` — dispatched by `MMU::wb` for any write into
0x4000–0x5FFF — takes `% self.ram_banks` with `ram_banks = 0` and panics
with a division by zero (modelled as `none`) instead of ignoring the
write; and `MBC0::read_rom(0x150)` on a 0x150-byte ROM indexes past the
end and panics (modelled as `none`) instead of returning 0xFF. -/
theorem c2_bus_access_panics :
    (MBC5.new mbc5NoRamImage).ram_banks = 0 ∧
    MBC5.write_rom (MBC5.new mbc5NoRamImage) 0x4000 0 = none ∧
    MBC0.read_rom (MBC0.new mbc5NoRamImage) 0x150 = none := by
  have h147 : mbc5NoRamImage[0x147]?.getD 0 = 0x19 := by
    rw [show mbc5NoRamImage = (List.replicate 0x150 0).set 0x147 0x19 from rfl,
      List.getElem?_set_eq_of_lt _ (by simp only [List.length_replicate]; omega)]
    rfl
  have h : (MBC5.new mbc5NoRamImage).ram_banks = 0 := by
    simp [MBC5.new, h147]
  refine ⟨h, ?_, ?_⟩
  · rw [MBC5.write_rom, if_neg (by norm_num), if_neg (by norm_num), if_neg (by norm_num),
      if_pos (by norm_num), if_pos h]
  · have hlen : mbc5NoRamImage.length = 0x150 := by
      simp only [mbc5NoRamImage, List.length_set, List.length_replicate]
    show mbc5NoRamImage.get? 0x150 = none
    exact List.get?_eq_none.mpr (by rw [hlen])

/-- C4: MBC1 banking on a cartridge whose header declares 128 ROM banks
(`rom[0x148] = 6`).  Writing 0 to 0x2000 coerces the 5-bit bank field to 1;
after writing 0x00 to 0x2000 and 0x01 to 0x4000 the switchable region reads
`rom[(1 | 1<<5) * 0x4000]`; after writing 1 to 0x6000 (banking mode 1) the
fixed region reads `rom[(1<<5) * 0x4000]`. -/
theorem c4_mbc1_banking (rom : List Nat) (hlen : rom.length = 0x200000)
    (h148 : rom.getD 0x148 0 = 6) :
    ((MBC1.new rom).write_rom 0x2000 0).map MBC1.rom_bank = some 1 ∧
    (((MBC1.new rom).write_rom 0x2000 0).bind (fun m => m.write_rom 0x4000 1)).map
      (fun m => m.read_rom 0x4000) = some (rom.getD ((1 ||| (1 <<< 5)) * 0x4000) 0xFF) ∧
    ((((MBC1.new rom).write_rom 0x2000 0).bind (fun m => m.write_rom 0x4000 1)).bind
      (fun m => m.write_rom 0x6000 1)).map (fun m => m.read_rom 0x0000)
      = some (rom.getD ((1 <<< 5) * 0x4000) 0xFF) := by
  simp only [List.getD_eq_getElem?_getD] at h148
  have hbanks : (MBC1.new rom).rom_banks = 128 := by
    simp [MBC1.new, rom_banks, h148]
  have hrom : (MBC1.new rom).rom = rom := by simp [MBC1.new]
  have hbank : (MBC1.new rom).rom_bank = 1 := by simp [MBC1.new]
  have e1 : (MBC1.new rom).write_rom 0x2000 0 = some { MBC1.new rom with rom_bank := 1 } := by
    simp [MBC1.write_rom, hbanks, hbank]
  have e2 : ({ MBC1.new rom with rom_bank := 1 } : MBC1).write_rom 0x4000 1
      = some (if 1 < (MBC1.new rom).ram_banks then
          { MBC1.new rom with rom_bank := 33, ram_bank := 1 }
        else { MBC1.new rom with rom_bank := 33 }) := by
    by_cases h : 1 < (MBC1.new rom).ram_banks <;> simp [MBC1.write_rom, hbanks, h]
  have e3 : (if 1 < (MBC1.new rom).ram_banks then
        { MBC1.new rom with rom_bank := 33, ram_bank := 1 }
      else ({ MBC1.new rom with rom_bank := 33 } : MBC1)).write_rom 0x6000 1
      = some (if 1 < (MBC1.new rom).ram_banks then
          { MBC1.new rom with rom_bank := 33, ram_bank := 1, banking_mode := 1 }
        else { MBC1.new rom with rom_bank := 33, banking_mode := 1 }) := by
    by_cases h : 1 < (MBC1.new rom).ram_banks <;> simp [MBC1.write_rom, h]
  refine ⟨?_, ?_, ?_⟩
  · rw [e1]
    rfl
  · rw [e1, Option.some_bind, e2, Option.map_some']
    by_cases h : 1 < (MBC1.new rom).ram_banks <;>
      [rw [if_pos h]; rw [if_neg h]] <;>
      · show some (rom.getD (33 * 0x4000 ||| (0x4000 &&& 0x3FFF)) 0xFF)
          = some (rom.getD ((1 ||| (1 <<< 5)) * 0x4000) 0xFF)
        rw [show (33 * 0x4000 ||| (0x4000 &&& 0x3FFF) : Nat) = (1 ||| (1 <<< 5)) * 0x4000 from by
          decide]
  · rw [e1, Option.some_bind, e2, Option.some_bind, e3, Option.map_some']
    by_cases h : 1 < (MBC1.new rom).ram_banks <;>
      [rw [if_pos h]; rw [if_neg h]] <;>
      · show some (rom.getD ((33 &&& 0xE0) * 0x4000 ||| (0 &&& 0x3FFF)) 0xFF)
          = some (rom.getD ((1 <<< 5) * 0x4000) 0xFF)
        rw [show ((33 &&& 0xE0) * 0x4000 ||| (0 &&& 0x3FFF) : Nat) = (1 <<< 5) * 0x4000 from by
          decide]

/-- A 2 MiB all-zero image whose ROM-size byte 0x148 is 6 (128 banks). -/
def mbc1Image128 : List Nat := (List.replicate 0x200000 0).set 0x148 6

/-- C4 witness: the banking theorem applied to the concrete 128-bank
image `mbc1Image128` (all reads hit zero bytes). -/
theorem c4_witness :
    ((MBC1.new mbc1Image128).write_rom 0x2000 0).map MBC1.rom_bank = some 1 ∧
    (((MBC1.new mbc1Image128).write_rom 0x2000 0).bind (fun m => m.write_rom 0x4000 1)).map
      (fun m => m.read_rom 0x4000) = some 0 ∧
    ((((MBC1.new mbc1Image128).write_rom 0x2000 0).bind (fun m => m.write_rom 0x4000 1)).bind
      (fun m => m.write_rom 0x6000 1)).map (fun m => m.read_rom 0x0000) = some 0 := by
  have hlen : mbc1Image128.length = 0x200000 := by
    simp only [mbc1Image128, List.length_set, List.length_replicate]
  have h148 : mbc1Image128.getD 0x148 0 = 6 := by
    rw [show mbc1Image128 = (List.replicate 0x200000 0).set 0x148 6 from rfl,
      List.getD_eq_getElem?_getD,
      List.getElem?_set_eq_of_lt _ (by simp only [List.length_replicate]; omega)]
    rfl
  obtain ⟨h1, h2, h3⟩ := c4_mbc1_banking mbc1Image128 hlen h148
  have g : ∀ idx : Nat, 0x148 ≠ idx → idx < 0x200000 → mbc1Image128.getD idx 0xFF = 0 := by
    intro idx hne hlt
    rw [show mbc1Image128 = (List.replicate 0x200000 0).set 0x148 6 from rfl,
      List.getD_eq_getElem?_getD, List.getElem?_set_ne hne, List.getElem?_replicate,
      if_pos hlt]
    rfl
  refine ⟨h1, ?_, ?_⟩
  · rw [h2, g ((1 ||| (1 <<< 5)) * 0x4000) (by decide) (by decide)]
  · rw [h3, g ((1 <<< 5) * 0x4000) (by decide) (by decide)]

/-- The checksum fold is a wrapping negative sum: folding `checksumStep`
from `v < 256` over a byte list computes `(v + Σ (255 - b)) % 256`. -/
lemma foldl_checksumStep (l : List Nat) (v : Nat) (hv : v < 256) (hb : ∀ b ∈ l, b ≤ 255) :
    l.foldl checksumStep v = (v + (l.map (fun b => 255 - b)).sum) % 256 := by
  induction l generalizing v with
  | nil => simp [Nat.mod_eq_of_lt hv]
  | cons b t ih =>
    simp only [List.foldl_cons, List.map_cons, List.sum_cons]
    have hb' : b ≤ 255 := hb b (List.mem_cons_self _ _)
    rw [ih (checksumStep v b) (Nat.mod_lt _ (by norm_num))
      (fun x hx => hb x (List.mem_cons_of_mem _ hx))]
    rw [checksumStep, Nat.mod_eq_of_lt (show b < 256 by omega), Nat.mod_add_mod]
    have harg : v + 256 - b + 255 + (t.map (fun b => 255 - b)).sum
        = (v + (255 - b + (t.map (fun b => 255 - b)).sum)) + 256 := by omega
    rw [harg, Nat.add_mod_right]

/-- Mapping `255 - ·` over a byte list sums to `255·len − sum`. -/
lemma sum_map_rsub (l : List Nat) (hb : ∀ b ∈ l, b ≤ 255) :
    (l.map (fun b => 255 - b)).sum = 255 * l.length - l.sum ∧ l.sum ≤ 255 * l.length := by
  induction l with
  | nil => simp
  | cons b t ih =>
    obtain ⟨ih1, ih2⟩ := ih (fun x hx => hb x (List.mem_cons_of_mem _ hx))
    have hb' : b ≤ 255 := hb b (List.mem_cons_self _ _)
    refine ⟨?_, ?_⟩ <;> simp only [List.map_cons, List.sum_cons, List.length_cons, ih1] <;> omega

/-- `check_checksum` passes exactly when byte 0x14D equals the wrapping
value `−Σ(data[i]+1)` over the header range (here written as
`(0x19·0x100 − (headerSum + 0x19)) % 256`). -/
lemma check_checksum_iff (data : List Nat) (hlen : 0x150 ≤ data.length)
    (hb : ∀ b ∈ data, b < 256) :
    (check_checksum data = true ↔
      data.getD 0x14D 0 = (0x19 * 0x100 - (headerSum data + 0x19)) % 256) := by
  have hmem : ∀ x ∈ (List.range' 0x134 0x19).map (fun i => data.getD i 0), x ≤ 255 := by
    intro x hx
    obtain ⟨i, hi, rfl⟩ := List.mem_map.1 hx
    obtain ⟨k, hk, rfl⟩ := List.mem_range'.1 hi
    have hilt : 0x134 + 1 * k < data.length := by omega
    have hin : data.getD (0x134 + 1 * k) 0 ∈ data := by
      rw [List.getD_eq_getElem?_getD, List.getElem?_eq_getElem hilt]
      exact List.getElem_mem hilt
    exact Nat.le_of_lt_succ (hb _ hin)
  have hfold : (List.range' 0x134 0x19).foldl (fun v i => checksumStep v (data.getD i 0)) 0
      = (0x19 * 0x100 - (headerSum data + 0x19)) % 256 := by
    rw [← List.foldl_map (fun i => data.getD i 0) checksumStep,
      foldl_checksumStep _ 0 (by norm_num) hmem]
    obtain ⟨hsum, hle⟩ := sum_map_rsub _ hmem
    rw [Nat.zero_add, hsum]
    have hlenm : ((List.range' 0x134 0x19).map (fun i => data.getD i 0)).length = 0x19 := by
      rw [List.length_map, List.length_range']
    rw [hlenm]
    have : headerSum data = ((List.range' 0x134 0x19).map (fun i => data.getD i 0)).sum := rfl
    rw [← this] at hle ⊢
    have harg : 255 * 0x19 - headerSum data = 0x19 * 0x100 - (headerSum data + 0x19) := by
      rw [hlenm] at hle
      omega
    rw [harg]
  rw [check_checksum, hfold, beq_iff_eq]

/-- C5: the header checksum has a right-inverse.  For every ROM image of at
least 0x150 bytes, `check_checksum` passes exactly when `data[0x14D]` equals
the wrapping value `−Σ(data[i]+1)` over `i ∈ [0x134, 0x14D)`; for 0x150
zero bytes it passes iff `data[0x14D] = 0xE7` and fails for every other
byte. -/
theorem c5_checksum_right_inverse :
    (∀ data : List Nat, 0x150 ≤ data.length → (∀ b ∈ data, b < 256) →
      (check_checksum data = true ↔
        data.getD 0x14D 0 = (0x19 * 0x100 - (headerSum data + 0x19)) % 256)) ∧
    (∀ b : Nat, b < 256 →
      (check_checksum ((List.replicate 0x150 0).set 0x14D b) = true ↔ b = 0xE7)) := by
  refine ⟨check_checksum_iff, fun b hbb => ?_⟩
  have hlen : ((List.replicate 0x150 0).set 0x14D b).length = 0x150 := by
    simp only [List.length_set, List.length_replicate]
  have hb : ∀ x ∈ (List.replicate 0x150 0).set 0x14D b, x < 256 := by
    intro x hx
    rcases List.mem_or_eq_of_mem_set hx with h | rfl
    · have := List.eq_of_mem_replicate h
      omega
    · exact hbb
  have hGet : ∀ i : Nat, i ≠ 0x14D → i < 0x150 →
      ((List.replicate 0x150 0).set 0x14D b).getD i 0 = 0 := by
    intro i hne hlt
    rw [List.getD_eq_getElem?_getD, List.getElem?_set_ne (Ne.symm hne),
      List.getElem?_replicate, if_pos hlt]
    rfl
  have hSum : headerSum ((List.replicate 0x150 0).set 0x14D b) = 0 := by
    apply List.sum_eq_zero
    intro x hx
    obtain ⟨i, hi, rfl⟩ := List.mem_map.1 hx
    obtain ⟨k, hk, rfl⟩ := List.mem_range'.1 hi
    exact hGet _ (by omega) (by omega)
  have h14D : ((List.replicate 0x150 0).set 0x14D b).getD 0x14D 0 = b := by
    rw [List.getD_eq_getElem?_getD,
      List.getElem?_set_eq_of_lt _ (by simp only [List.length_replicate]; omega)]
    rfl
  rw [check_checksum_iff _ (by omega) hb, hSum, h14D]

/-- C5 witness: 0x150 zero bytes with checksum byte 0xE7 pass, and with
checksum byte 0x00 fail. -/
theorem c5_witness :
    check_checksum ((List.replicate 0x150 0).set 0x14D 0xE7) = true ∧
    check_checksum ((List.replicate 0x150 0).set 0x14D 0x00) ≠ true := by
  constructor
  · exact (c5_checksum_right_inverse.2 0xE7 (by norm_num)).mpr rfl
  · intro h
    exact absurd ((c5_checksum_right_inverse.2 0x00 (by norm_num)).mp h) (by norm_num)

/-! ## Printer (src/printer.rs) -/

/-- The link-cable printer.  The 0x400-byte `packet` buffer and the
`0x280 * 9`-byte tile `data` buffer are modelled as total maps; every
array write in the source is guarded by the index bound (an out-of-bounds
write or read panics in Rust and is modelled as `none` in the operations
below). -/
structure GbPrinter where
  status : Nat
  state : Nat
  data : Nat → Nat
  packet : Nat → Nat
  count : Nat
  datacount : Nat
  datasize : Nat
  result : Nat
  printcount : Nat

namespace GbPrinter

/-- `GbPrinter::new`. -/
def new : GbPrinter :=
  { status := 0, state := 0, data := fun _ => 0, packet := fun _ => 0,
    count := 0, datacount := 0, datasize := 0, result := 0, printcount := 0 }

/-- `GbPrinter::check_crc`: little-endian 16-bit wrapping sum of
`packet[2..6+datasize]` compared with the two following bytes; reads past
the packet buffer panic (`none`). -/
def check_crc (p : GbPrinter) : Option Bool :=
  if 7 + p.datasize < 0x400 then
    some (((List.range' 2 (4 + p.datasize)).foldl (fun c i => (c + p.packet i) % 65536) 0)
      == (p.packet (6 + p.datasize) + (p.packet (7 + p.datasize) <<< 8)) % 65536)
  else none

/-- `GbPrinter::reset`. -/
def reset (p : GbPrinter) : GbPrinter :=
  { p with state := 0, datasize := 0, datacount := 0, count := 0, status := 0, result := 0 }

/-- `GbPrinter::show`: renders the tile buffer to a PGM file.  The file
output (and any I/O error, which the source only logs) is not observable in
the embedding; the state effect is the `printcount` increment. -/
def doShow (p : GbPrinter) : GbPrinter :=
  { p with printcount := (p.printcount + 1) % 256 }

/-- The RLE decompression loop inside `GbPrinter::receive`
(`packet[3] ≠ 0`).  `control` bit 7 selects a run (`(control & 0x7F) + 2`
copies of the next byte) versus a raw stretch (`control + 1` bytes); any
out-of-bounds array access is `none`. -/
def rleLoop (packet : Nat → Nat) (datasize : Nat) (dataidx destidx : Nat)
    (data : Nat → Nat) : Option (Nat × (Nat → Nat)) :=
  if h : dataidx - 6 < datasize then
    if dataidx < 0x400 then
      let control := packet dataidx
      if control &&& 0x80 = 0 then
        let curlen := control + 1
        if destidx + curlen ≤ 0x280 * 9 ∧ dataidx + 1 + curlen ≤ 0x400 then
          rleLoop packet datasize (dataidx + 1 + curlen) (destidx + curlen)
            (fun j => if destidx ≤ j ∧ j < destidx + curlen then
              packet (dataidx + 1 + (j - destidx)) else data j)
        else none
      else
        let curlen := (control &&& 0x7F) + 2
        if destidx + curlen ≤ 0x280 * 9 ∧ dataidx + 1 < 0x400 then
          rleLoop packet datasize (dataidx + 2) (destidx + curlen)
            (fun j => if destidx ≤ j ∧ j < destidx + curlen then
              packet (dataidx + 1) else data j)
        else none
    else none
  else some (destidx, data)
termination_by datasize + 6 - dataidx
decreasing_by
  all_goals omega

/-- `GbPrinter::receive` (command 0x04): append packet data to the tile
buffer, raw when `packet[3] = 0`, RLE otherwise. -/
def receive (p : GbPrinter) : Option GbPrinter :=
  if p.packet 3 = 0 then
    if p.datacount + p.datasize ≤ 0x280 * 9 ∧ 6 + p.datasize ≤ 0x400 then
      some { p with
        data := fun j => if p.datacount ≤ j ∧ j < p.datacount + p.datasize then
          p.packet (6 + (j - p.datacount)) else p.data j,
        datacount := p.datacount + p.datasize }
    else none
  else
    (rleLoop p.packet p.datasize 6 p.datacount p.data).map
      (fun r => { p with data := r.2, datacount := r.1 })

/-- `GbPrinter::command`: 0x01 resets `datacount` and `status`, 0x02
renders, 0x04 appends data, anything else is ignored. -/
def command (p : GbPrinter) : Option GbPrinter :=
  if p.packet 2 = 0x01 then some { p with datacount := 0, status := 0 }
  else if p.packet 2 = 0x02 then some p.doShow
  else if p.packet 2 = 0x04 then p.receive
  else some p

/-- `GbPrinter::send`: store the byte in the packet buffer, advance the
packet state machine, and return the current `result` byte. -/
def send (p : GbPrinter) (v : Nat) : Option (Nat × GbPrinter) :=
  if p.count < 0x400 then
    let p1 : GbPrinter :=
      { p with packet := fun j => if j = p.count then v else p.packet j, count := p.count + 1 }
    let q : Option GbPrinter :=
      if p1.state = 0 then some (if v = 0x88 then { p1 with state := 1 } else p1.reset)
      else if p1.state = 1 then some (if v = 0x33 then { p1 with state := 2 } else p1.reset)
      else if p1.state = 2 then
        some (if p1.count = 6 then
          let ds := p1.packet 4 + (p1.packet 5 <<< 8)
          if ds > 0 then { p1 with datasize := ds, state := 3 }
          else { p1 with datasize := ds, state := 4 }
        else p1)
      else if p1.state = 3 then
        some (if p1.count = p1.datasize + 6 then { p1 with state := 4 } else p1)
      else if p1.state = 4 then some { p1 with state := 5 }
      else if p1.state = 5 then
        (p1.check_crc.bind (fun ok => if ok then p1.command else some p1)).map
          (fun q => { q with state := 6 })
      else if p1.state = 6 then some { p1 with result := 0x81, state := 7 }
      else if p1.state = 7 then some { p1 with result := p1.status, state := 0, count := 0 }
      else some p1.reset
    q.map (fun q => (q.result, q))
  else none

/-- Feed a byte list through `send`, collecting the returned bytes. -/
def runSend (p : GbPrinter) (bytes : List Nat) : Option (List Nat × GbPrinter) :=
  bytes.foldl
    (fun acc v => acc.bind (fun rq => (send rq.2 v).map (fun r => (rq.1 ++ [r.1], r.2))))
    (some ([], p))

end GbPrinter

/-! ## CPU interrupt service (src/cpu.rs)

The CPU is embedded over an abstract bus interface: `MMU` owns the GPU,
sound and timer whose sources are not under src/, so the four bus
operations `handle_interrupt` and `push_stack` use (`inte`, `intf` reads,
the `intf` write, and `ww`) are parameters.  `CPU::call` (the opcode
dispatcher, stubbed `todo!()` in the source) is likewise a parameter; the
interrupt path never reaches it. -/

/-- Bus operations used by the interrupt-service path of `CPU`. -/
structure MmuIntf (M : Type) where
  inte : M → Nat
  intf : M → Nat
  setIntf : M → Nat → M
  ww : M → Nat → Nat → M

/-- The CPU state (src/cpu.rs) over an abstract bus state `M`. -/
structure CPU (M : Type) where
  reg : Registers
  mmu : M
  halted : Bool
  halt_bug : Bool
  ime : Bool
  setdi : Nat
  setei : Nat

/-- `u8::trailing_zeros` on the values the interrupt path can produce:
exact for every argument whose trailing-zero count is at most 4; any other
argument (including 0) yields 8, which `handle_interrupt` sends into the
same `n >= 5` panic branch as the source. -/
def trailingZerosLow (n : Nat) : Nat :=
  if n % 2 = 1 then 0
  else if n % 4 = 2 then 1
  else if n % 8 = 4 then 2
  else if n % 16 = 8 then 3
  else if n % 32 = 16 then 4
  else 8

namespace CPU

variable {M : Type}

/-- `CPU::update_ime`: the two-step `setdi`/`setei` armers. -/
def update_ime (c : CPU M) : CPU M :=
  let c :=
    match c.setdi with
    | 2 => { c with setdi := 1 }
    | 1 => { c with ime := false, setdi := 0 }
    | _ => { c with setdi := 0 }
  match c.setei with
  | 2 => { c with setei := 1 }
  | 1 => { c with ime := true, setei := 0 }
  | _ => { c with setei := 0 }

/-- `CPU::push_stack`: `sp = sp.wrapping_sub(2); mmu.ww(sp, value)`. -/
def push_stack (I : MmuIntf M) (c : CPU M) (value : Nat) : CPU M :=
  let sp := (c.reg.sp + 0x10000 - 2) % 0x10000
  { c with reg := { c.reg with sp := sp }, mmu := I.ww c.mmu sp value }

/-- `CPU::handle_interrupt`.  Returns the tick count and the new state;
the `panic!("invalid interrupt triggered")` branch for a service index
`n ≥ 5` is `none`. -/
def handle_interrupt (I : MmuIntf M) (c : CPU M) : Option (Nat × CPU M) :=
  if ¬c.ime ∧ ¬c.halted then some (0, c)
  else
    let triggered := I.inte c.mmu &&& I.intf c.mmu &&& 0x1F
    if triggered = 0 then some (0, c)
    else
      let c := { c with halted := false }
      if ¬c.ime then some (0, c)
      else
        let c := { c with ime := false }
        let n := trailingZerosLow triggered
        if 5 ≤ n then none
        else
          let c := { c with mmu := I.setIntf c.mmu (I.intf c.mmu &&& (0xFF ^^^ (1 <<< n))) }
          let pc := c.reg.pc
          let c := push_stack I c pc
          some (4, { c with reg := { c.reg with pc := 0x40 ||| (n <<< 3) } })

/-- `CPU::get_ticks` (the body of one `step`): apply pending IME
transitions, try interrupt service, otherwise idle when halted or run one
instruction via `callFn` (the opcode dispatcher). -/
def get_ticks (I : MmuIntf M) (callFn : CPU M → Nat × CPU M) (c : CPU M) :
    Option (Nat × CPU M) :=
  let c := update_ime c
  (handle_interrupt I c).bind (fun r =>
    if r.1 = 0 then some (if r.2.halted then (1, r.2) else callFn r.2)
    else some r)

end CPU

/-! ## MMU cycle advancement (src/mmu.rs) -/

/-- A subsystem as seen by `MMU::do_cycle`: its pending-interrupt latch and
the rest of its state (opaque). -/
structure Subsys where
  interrupt : Nat
  rest : Nat
deriving DecidableEq, Repr

/-- The slice of the MMU state that `MMU::do_cycle` touches. -/
structure MMUCycle where
  intf : Nat
  timer : Subsys
  keypad : Subsys
  gpu : Subsys
  serial : Subsys
  sound : Subsys
  rest : Nat
deriving DecidableEq, Repr

/-- `MMU::do_cycle`, modelled from the source with the subsystems whose
files are not under src/ as parameters: `vramStep` stands for
`perform_vramdma` (state plus extra ticks), `timerStep`, `gpuStep` and
`soundStep` for `Timer::do_cycle`, `GPU::do_cycle` and `Sound::do_cycle`,
and `speedDiv` for `gbspeed as u32`.  The interrupt drains are from the
source: each latch is `mem::take`n and OR-ed into `intf` in this exact
order, after the respective subsystem has advanced. -/
def mmuDoCycle (vramStep : MMUCycle → MMUCycle × Nat)
    (timerStep gpuStep soundStep : Nat → Subsys → Subsys)
    (speedDiv ticks : Nat) (m : MMUCycle) : MMUCycle × Nat :=
  let v := vramStep m
  let m1 := v.1
  let vramticks := v.2
  let gputicks := ticks / speedDiv + vramticks
  let cputicks := ticks + vramticks * speedDiv
  let m2 := { m1 with timer := timerStep cputicks m1.timer }
  let m3 := { m2 with intf := m2.intf ||| m2.timer.interrupt,
                      timer := { m2.timer with interrupt := 0 } }
  let m4 := { m3 with intf := m3.intf ||| m3.keypad.interrupt,
                      keypad := { m3.keypad with interrupt := 0 } }
  let m5 := { m4 with gpu := gpuStep gputicks m4.gpu }
  let m6 := { m5 with intf := m5.intf ||| m5.gpu.interrupt,
                      gpu := { m5.gpu with interrupt := 0 } }
  let m7 := { m6 with sound := soundStep gputicks m6.sound }
  let m8 := { m7 with intf := m7.intf ||| m7.serial.interrupt,
                      serial := { m7.serial with interrupt := 0 } }
  (m8, gputicks)

/-- C7: feeding 0x88, 0x33, 0x01, 0x00, 0x00, 0x00, 0x01, 0x00, 0x02, 0x00
byte by byte into the printer from the initial state walks the packet state
machine (magic, header, checksum, acks), dispatches init command 0x01
(resetting `datacount` and `status` to 0), returns 0x81 from the
next-to-last call and 0x00 from the last, ending at state 0 with count 0. -/
theorem c7_printer_happy_path :
    (GbPrinter.runSend GbPrinter.new
        [0x88, 0x33, 0x01, 0x00, 0x00, 0x00, 0x01, 0x00, 0x02, 0x00]).map
      (fun r => (r.1, r.2.state, r.2.count, r.2.datacount, r.2.status, r.2.result))
      = some ([0, 0, 0, 0, 0, 0, 0, 0, 0x81, 0x00], 0, 0, 0, 0, 0) := by
  rfl

/-- For a nonzero 5-bit mask the trailing-zero count is a valid interrupt
index (below 5). -/
lemma trailingZerosLow_lt_5 {t : Nat} (h0 : t ≠ 0) (h32 : t < 32) :
    trailingZerosLow t < 5 := by
  unfold trailingZerosLow
  split_ifs <;> omega

/-- C1: with IE = 0x1F, IF = 0x14, IME on and the CPU halted (no pending
IME armers), a step services the lowest-set interrupt: it unhalts, clears
IME, writes IF = 0x10 (bit 2 — Timer — cleared, bit 4 left set),
decrements SP by 2 (wrapping), pushes the old PC there via `MMU::ww`, sets
PC = 0x0050, and returns 4 ticks; in general the new PC is
`0x0040 | (n <<< 3)` for the serviced index `n`. -/
theorem c1_interrupt_dispatch {M : Type} (I : MmuIntf M) (callFn : CPU M → Nat × CPU M) :
    (∀ c : CPU M, I.inte c.mmu = 0x1F → I.intf c.mmu = 0x14 → c.ime = true →
      c.halted = true → c.setdi = 0 → c.setei = 0 →
      CPU.get_ticks I callFn c = some (4,
        { c with
          halted := false
          ime := false
          setdi := 0
          setei := 0
          reg := { c.reg with pc := 0x0050, sp := (c.reg.sp + 0x10000 - 2) % 0x10000 }
          mmu := I.ww (I.setIntf c.mmu 0x10) ((c.reg.sp + 0x10000 - 2) % 0x10000) c.reg.pc })) ∧
    (∀ c : CPU M, c.ime = true → c.setdi = 0 → c.setei = 0 →
      (I.inte c.mmu &&& I.intf c.mmu &&& 0x1F) ≠ 0 →
      ∃ d : CPU M, CPU.get_ticks I callFn c = some (4, d) ∧ d.halted = false ∧
        d.ime = false ∧
        d.reg.pc = 0x40 ||| (trailingZerosLow (I.inte c.mmu &&& I.intf c.mmu &&& 0x1F) <<< 3)) := by
  constructor
  · intro c hie hif hime hhalt hdi hei
    simp only [CPU.get_ticks, CPU.update_ime, hdi, hei, CPU.handle_interrupt, hime, hhalt,
      CPU.push_stack, hie, hif]
    rw [show (31 &&& 20 &&& 31 : Nat) = 20 from by decide]
    norm_num [trailingZerosLow]
    rw [show (64 ||| 2 <<< 3 : Nat) = 0x50 from by decide,
      show (20 &&& (255 ^^^ 1 <<< 2) : Nat) = 0x10 from by decide]
    simp
  · intro c hime hdi hei htrig
    have hlt : I.inte c.mmu &&& I.intf c.mmu &&& 0x1F < 32 :=
      Nat.lt_succ_of_le (Nat.and_le_right)
    have htz := trailingZerosLow_lt_5 htrig hlt
    have hstep : CPU.get_ticks I callFn c = some (4,
        { c with
          halted := false
          ime := false
          setdi := 0
          setei := 0
          reg := { c.reg with
            pc := 0x40 ||| (trailingZerosLow (I.inte c.mmu &&& I.intf c.mmu &&& 0x1F) <<< 3)
            sp := (c.reg.sp + 0x10000 - 2) % 0x10000 }
          mmu := I.ww (I.setIntf c.mmu (I.intf c.mmu &&& (0xFF ^^^
              (1 <<< trailingZerosLow (I.inte c.mmu &&& I.intf c.mmu &&& 0x1F)))))
            ((c.reg.sp + 0x10000 - 2) % 0x10000) c.reg.pc }) := by
      simp only [CPU.get_ticks, CPU.update_ime, hdi, hei, CPU.handle_interrupt, hime,
        CPU.push_stack]
      rw [if_neg (by simp), if_neg htrig, if_neg (by simp), if_neg (by omega)]
      simp
    exact ⟨_, hstep, rfl, rfl, rfl⟩

/-- C1 witness: the theorem applied at a concrete bus state (`M := Nat`
with IE = 0x1F, IF = 0x14 read off constants) and a concrete halted CPU. -/
theorem c1_witness :
    CPU.get_ticks (M := Nat)
      ⟨fun _ => 0x1F, fun _ => 0x14, fun _ v => v, fun m a b => m + a + b⟩
      (fun c => (0, c))
      ⟨Registers.new .Classic, 0, true, false, true, 0, 0⟩
      = some (4,
        { reg := { Registers.new .Classic with pc := 0x0050, sp := 0xFFFC }
          mmu := 0x10 + 0xFFFC + 0x0100
          halted := false
          halt_bug := false
          ime := false
          setdi := 0
          setei := 0 }) := by
  have h := (c1_interrupt_dispatch (M := Nat)
      ⟨fun _ => 0x1F, fun _ => 0x14, fun _ v => v, fun m a b => m + a + b⟩
      (fun c => (0, c))).1
      ⟨Registers.new .Classic, 0, true, false, true, 0, 0⟩ rfl rfl rfl rfl rfl rfl
  rw [h]
  rfl

/-- Absorption: if `x` absorbs `a` then so does `x ||| y`. -/
lemma or_absorb_left (x y a : Nat) (h : x ||| a = x) : (x ||| y) ||| a = x ||| y := by
  rw [Nat.or_assoc, Nat.or_comm y a, ← Nat.or_assoc, h]

/-- Absorption: if `y` absorbs `a` then so does `x ||| y`. -/
lemma or_absorb_right (x y a : Nat) (h : y ||| a = y) : (x ||| y) ||| a = x ||| y := by
  rw [Nat.or_assoc, h]

/-- C10: every call to `MMU::do_cycle` drains the subsystem interrupt
latches.  Provided the bus helpers behave as the source does —
`perform_vramdma` never touches `intf`, the timer, keypad or serial
latches and only raises bits of the GPU latch, and the timer/GPU steps
only raise bits of their own latch — the returned state has all four
latches equal to 0, its `intf` retains every bit of the entry `intf`
(nothing is cleared) and has absorbed each latch's prior value. -/
theorem c10_do_cycle_drains
    (vramStep : MMUCycle → MMUCycle × Nat)
    (timerStep gpuStep soundStep : Nat → Subsys → Subsys)
    (speedDiv ticks : Nat) (m : MMUCycle)
    (hv : ∀ x, (vramStep x).1.intf = x.intf ∧ (vramStep x).1.timer = x.timer ∧
      (vramStep x).1.keypad = x.keypad ∧ (vramStep x).1.serial = x.serial ∧
      (vramStep x).1.gpu.interrupt ||| x.gpu.interrupt = (vramStep x).1.gpu.interrupt)
    (ht : ∀ k t, (timerStep k t).interrupt ||| t.interrupt = (timerStep k t).interrupt)
    (hg : ∀ k t, (gpuStep k t).interrupt ||| t.interrupt = (gpuStep k t).interrupt) :
    (mmuDoCycle vramStep timerStep gpuStep soundStep speedDiv ticks m).1.timer.interrupt = 0 ∧
    (mmuDoCycle vramStep timerStep gpuStep soundStep speedDiv ticks m).1.keypad.interrupt = 0 ∧
    (mmuDoCycle vramStep timerStep gpuStep soundStep speedDiv ticks m).1.gpu.interrupt = 0 ∧
    (mmuDoCycle vramStep timerStep gpuStep soundStep speedDiv ticks m).1.serial.interrupt = 0 ∧
    (mmuDoCycle vramStep timerStep gpuStep soundStep speedDiv ticks m).1.intf ||| m.intf
      = (mmuDoCycle vramStep timerStep gpuStep soundStep speedDiv ticks m).1.intf ∧
    (mmuDoCycle vramStep timerStep gpuStep soundStep speedDiv ticks m).1.intf
        ||| m.timer.interrupt
      = (mmuDoCycle vramStep timerStep gpuStep soundStep speedDiv ticks m).1.intf ∧
    (mmuDoCycle vramStep timerStep gpuStep soundStep speedDiv ticks m).1.intf
        ||| m.keypad.interrupt
      = (mmuDoCycle vramStep timerStep gpuStep soundStep speedDiv ticks m).1.intf ∧
    (mmuDoCycle vramStep timerStep gpuStep soundStep speedDiv ticks m).1.intf
        ||| m.gpu.interrupt
      = (mmuDoCycle vramStep timerStep gpuStep soundStep speedDiv ticks m).1.intf ∧
    (mmuDoCycle vramStep timerStep gpuStep soundStep speedDiv ticks m).1.intf
        ||| m.serial.interrupt
      = (mmuDoCycle vramStep timerStep gpuStep soundStep speedDiv ticks m).1.intf := by
  obtain ⟨hvi, hvt, hvk, hvs, hvg⟩ := hv m
  simp only [mmuDoCycle, hvi, hvt, hvk, hvs]
  refine ⟨by trivial, by trivial, by trivial, by trivial, ?_, ?_, ?_, ?_, ?_⟩
  · exact or_absorb_left _ _ _ (or_absorb_left _ _ _ (or_absorb_left _ _ _
      (or_absorb_left _ _ _ (Nat.or_self _))))
  · exact or_absorb_left _ _ _ (or_absorb_left _ _ _ (or_absorb_left _ _ _
      (or_absorb_right _ _ _ (ht _ _))))
  · exact or_absorb_left _ _ _ (or_absorb_left _ _ _ (or_absorb_right _ _ _ (Nat.or_self _)))
  · refine or_absorb_left _ _ _ (or_absorb_right _ _ _ ?_)
    calc (gpuStep (ticks / speedDiv + (vramStep m).2) (vramStep m).1.gpu).interrupt
          ||| m.gpu.interrupt
        = ((gpuStep (ticks / speedDiv + (vramStep m).2) (vramStep m).1.gpu).interrupt
            ||| (vramStep m).1.gpu.interrupt) ||| m.gpu.interrupt := by rw [hg]
      _ = (gpuStep (ticks / speedDiv + (vramStep m).2) (vramStep m).1.gpu).interrupt
            ||| ((vramStep m).1.gpu.interrupt ||| m.gpu.interrupt) := by rw [Nat.or_assoc]
      _ = (gpuStep (ticks / speedDiv + (vramStep m).2) (vramStep m).1.gpu).interrupt
            ||| (vramStep m).1.gpu.interrupt := by rw [hvg]
      _ = (gpuStep (ticks / speedDiv + (vramStep m).2) (vramStep m).1.gpu).interrupt := by
            rw [hg]
  · exact or_absorb_right _ _ _ (Nat.or_self _)

/-- C10 witness: the theorem applied with identity subsystem steps, a
vram step that adds no ticks, and a state with one pending bit in each
latch. -/
theorem c10_witness :
    (mmuDoCycle (fun x => (x, 0)) (fun _ t => t) (fun _ t => t) (fun _ t => t) 1 4
        ⟨1, ⟨4, 0⟩, ⟨16, 0⟩, ⟨2, 0⟩, ⟨8, 0⟩, ⟨0, 0⟩, 0⟩).1.intf = 0x1F ∧
    (mmuDoCycle (fun x => (x, 0)) (fun _ t => t) (fun _ t => t) (fun _ t => t) 1 4
        ⟨1, ⟨4, 0⟩, ⟨16, 0⟩, ⟨2, 0⟩, ⟨8, 0⟩, ⟨0, 0⟩, 0⟩).1.timer.interrupt = 0 ∧
    (mmuDoCycle (fun x => (x, 0)) (fun _ t => t) (fun _ t => t) (fun _ t => t) 1 4
        ⟨1, ⟨4, 0⟩, ⟨16, 0⟩, ⟨2, 0⟩, ⟨8, 0⟩, ⟨0, 0⟩, 0⟩).1.keypad.interrupt = 0 ∧
    (mmuDoCycle (fun x => (x, 0)) (fun _ t => t) (fun _ t => t) (fun _ t => t) 1 4
        ⟨1, ⟨4, 0⟩, ⟨16, 0⟩, ⟨2, 0⟩, ⟨8, 0⟩, ⟨0, 0⟩, 0⟩).1.gpu.interrupt = 0 ∧
    (mmuDoCycle (fun x => (x, 0)) (fun _ t => t) (fun _ t => t) (fun _ t => t) 1 4
        ⟨1, ⟨4, 0⟩, ⟨16, 0⟩, ⟨2, 0⟩, ⟨8, 0⟩, ⟨0, 0⟩, 0⟩).1.serial.interrupt = 0 := by
  have h := c10_do_cycle_drains (fun x => (x, 0)) (fun _ t => t) (fun _ t => t) (fun _ t => t)
    1 4 ⟨1, ⟨4, 0⟩, ⟨16, 0⟩, ⟨2, 0⟩, ⟨8, 0⟩, ⟨0, 0⟩, 0⟩
    (fun x => ⟨rfl, rfl, rfl, rfl, Nat.or_self _⟩)
    (fun k t => Nat.or_self _) (fun k t => Nat.or_self _)
  exact ⟨by decide, h.1, h.2.1, h.2.2.1, h.2.2.2.1⟩

/-! ## Sound (src/sound.rs)

Everything `Sound::wb` reaches is embedded: the four channels, their
length counters, envelopes and sweep, and the frame-sequencer catch-up
`run()`.  The band-limited `BlipBuf` (an external crate) is modelled as
the list of `(clock, delta)` pairs passed to `add_delta`; the host-facing
output path (`do_cycle`/`do_output`/`mix_buffers`), which `wb` never
calls, is not embedded. -/

/-- `WAVE_PATTERN[duty][phase]` (src/sound.rs).  Both indices are always
in range in the source (`duty = v >> 6` of a byte, `phase` kept `% 8`). -/
def WAVE_PATTERN (duty phase : Nat) : Int :=
  ([[-1, -1, -1, -1, 1, -1, -1, -1],
    [-1, -1, -1, -1, 1, 1, -1, -1],
    [-1, -1, 1, 1, 1, 1, -1, -1],
    [1, 1, 1, 1, -1, -1, 1, 1]].getD duty []).getD phase (-1)

/-- `VolumeEnvelope` (src/sound.rs). -/
structure VolumeEnvelope where
  period : Nat
  goes_up : Bool
  delay : Nat
  initial_volume : Nat
  volume : Nat
deriving DecidableEq, Repr

namespace VolumeEnvelope

/-- `VolumeEnvelope::new`. -/
def new : VolumeEnvelope := ⟨0, false, 0, 0, 0⟩

/-- `VolumeEnvelope::wb`. -/
def wb (e : VolumeEnvelope) (a v : Nat) : VolumeEnvelope :=
  if a = 0xFF12 ∨ a = 0xFF17 ∨ a = 0xFF21 then
    { e with period := v &&& 0x7, goes_up := v &&& 0x8 = 0x8,
             initial_volume := v >>> 4, volume := v >>> 4 }
  else if (a = 0xFF14 ∨ a = 0xFF19 ∨ a = 0xFF23) ∧ v &&& 0x80 = 0x80 then
    { e with delay := e.period, volume := e.initial_volume }
  else e

/-- `VolumeEnvelope::step`. -/
def step (e : VolumeEnvelope) : VolumeEnvelope :=
  if e.delay > 1 then { e with delay := e.delay - 1 }
  else if e.delay = 1 then
    { e with
      delay := e.period
      volume := (if e.goes_up ∧ e.volume < 15 then e.volume + 1
        else if ¬e.goes_up ∧ e.volume > 0 then e.volume - 1
        else e.volume) }
  else e

end VolumeEnvelope

/-- `LengthCounter` (src/sound.rs). -/
structure LengthCounter where
  enabled : Bool
  value : Nat
  max : Nat
deriving DecidableEq, Repr

namespace LengthCounter

/-- `LengthCounter::new`. -/
def new (max : Nat) : LengthCounter := ⟨false, 0, max⟩

/-- `LengthCounter::is_active`. -/
def is_active (c : LengthCounter) : Bool := c.value > 0

/-- `LengthCounter::extra_step`. -/
def extra_step (frame_step : Nat) : Bool := frame_step % 2 = 1

/-- `LengthCounter::step`. -/
def step (c : LengthCounter) : LengthCounter :=
  { c with value := (if c.enabled ∧ c.value > 0 then c.value - 1 else c.value) }

/-- `LengthCounter::enable`. -/
def enable (c : LengthCounter) (en : Bool) (frame_step : Nat) : LengthCounter :=
  let was_enabled := c.enabled
  let c := { c with enabled := en }
  if ¬was_enabled ∧ extra_step frame_step then c.step else c

/-- `LengthCounter::set`. -/
def set (c : LengthCounter) (minus_value : Nat) : LengthCounter :=
  { c with value := c.max - minus_value }

/-- `LengthCounter::trigger`. -/
def trigger (c : LengthCounter) (frame_step : Nat) : LengthCounter :=
  if c.value = 0 then
    let c := { c with value := c.max }
    if extra_step frame_step then c.step else c
  else c

end LengthCounter

/-- `SquareChannel` (src/sound.rs).  `blip` is the `add_delta` log. -/
structure SquareChannel where
  active : Bool
  dac_enabled : Bool
  duty : Nat
  phase : Nat
  length : LengthCounter
  frequency : Nat
  period : Nat
  last_amp : Int
  delay : Nat
  has_sweep : Bool
  sweep_enabled : Bool
  sweep_frequency : Nat
  sweep_delay : Nat
  sweep_period : Nat
  sweep_shift : Nat
  sweep_negate : Bool
  sweep_did_negate : Bool
  volume_envelope : VolumeEnvelope
  blip : List (Nat × Int)
deriving DecidableEq, Repr

namespace SquareChannel

/-- `SquareChannel::new`. -/
def new (with_sweep : Bool) : SquareChannel :=
  { active := false, dac_enabled := false, duty := 1, phase := 1,
    length := LengthCounter.new 64, frequency := 0, period := 2048,
    last_amp := 0, delay := 0, has_sweep := with_sweep, sweep_enabled := false,
    sweep_frequency := 0, sweep_delay := 0, sweep_period := 0, sweep_shift := 0,
    sweep_negate := false, sweep_did_negate := false,
    volume_envelope := VolumeEnvelope.new, blip := [] }

/-- `SquareChannel::calculate_period`. -/
def calculate_period (s : SquareChannel) : SquareChannel :=
  { s with period := (if s.frequency > 2047 then 0 else (2048 - s.frequency) * 4) }

/-- `SquareChannel::sweep_calculate_frequency`: returns the new frequency
(`u16` wrapping arithmetic) and the updated channel (`sweep_did_negate`,
and deactivation on overflow past 2047). -/
def sweep_calculate_frequency (s : SquareChannel) : Nat × SquareChannel :=
  let offset := s.sweep_frequency >>> s.sweep_shift
  let r : Nat × SquareChannel :=
    if s.sweep_negate then
      ((s.sweep_frequency + 0x10000 - offset) % 0x10000, { s with sweep_did_negate := true })
    else ((s.sweep_frequency + offset) % 0x10000, s)
  if r.1 > 2047 then (r.1, { r.2 with active := false }) else r

/-- `SquareChannel::step_sweep` (only ever called on channel 1, which has
the sweep unit). -/
def step_sweep (s : SquareChannel) : SquareChannel :=
  if s.sweep_delay > 1 then { s with sweep_delay := s.sweep_delay - 1 }
  else if s.sweep_delay = 1 then { s with sweep_delay := 8 }
  else
    let s := { s with sweep_delay := s.sweep_period }
    if s.sweep_enabled then
      let r := s.sweep_calculate_frequency
      if r.1 ≤ 2047 then
        let s :=
          if r.2.sweep_shift ≠ 0 then
            ({ r.2 with sweep_frequency := r.1, frequency := r.1 }).calculate_period
          else r.2
        (s.sweep_calculate_frequency).2
      else r.2
    else s

/-- `SquareChannel::step_length`. -/
def step_length (s : SquareChannel) : SquareChannel :=
  let s := { s with length := s.length.step }
  { s with active := s.active && s.length.is_active }

/-- `SquareChannel::wb`. -/
def wb (s : SquareChannel) (a v frame_step : Nat) : SquareChannel :=
  let s :=
    if a = 0xFF10 then
      let old_sweep_negate := s.sweep_negate
      let s := { s with sweep_period := (v >>> 4) &&& 0x7, sweep_shift := v &&& 0x7,
                        sweep_negate := v &&& 0x8 = 0x8 }
      { s with
        active := (if old_sweep_negate ∧ ¬(v &&& 0x8 = 0x8) ∧ s.sweep_did_negate then
          false else s.active)
        sweep_did_negate := false }
    else if a = 0xFF11 ∨ a = 0xFF16 then
      { s with duty := v >>> 6, length := s.length.set (v &&& 0x3F) }
    else if a = 0xFF12 ∨ a = 0xFF17 then
      let dac := ¬(v &&& 0xF8 = 0)
      { s with dac_enabled := dac, active := s.active && dac }
    else if a = 0xFF13 ∨ a = 0xFF18 then
      ({ s with frequency := (s.frequency &&& 0x0700) ||| v }).calculate_period
    else if a = 0xFF14 ∨ a = 0xFF19 then
      let s := ({ s with
        frequency := (s.frequency &&& 0x00FF) ||| ((v &&& 0b111) <<< 8) }).calculate_period
      let s := { s with length := s.length.enable (v &&& 0x40 = 0x40) frame_step }
      let s := { s with active := s.active && s.length.is_active }
      if v &&& 0x80 = 0x80 then
        let s := if s.dac_enabled then { s with active := true } else s
        let s := { s with length := s.length.trigger frame_step }
        if s.has_sweep then
          let s := { s with
            sweep_frequency := s.frequency
            sweep_delay := (if s.sweep_period = 0 then 8 else s.sweep_period)
            sweep_enabled := s.sweep_period > 0 ∨ s.sweep_shift > 0 }
          if s.sweep_shift > 0 then (s.sweep_calculate_frequency).2 else s
        else s
      else s
    else s
  { s with volume_envelope := s.volume_envelope.wb a v }

/-- The `while time < end_time` loop of `SquareChannel::run`; the positive
period comes from the caller's guard. -/
def runLoop (pattern : Nat → Int) (volume : Int) (period endTime : Nat)
    (hp : 0 < period) (time phase : Nat) (lastAmp : Int) (blip : List (Nat × Int)) :
    Nat × Nat × Int × List (Nat × Int) :=
  if time < endTime then
    let amp := volume * pattern phase
    let blip := if amp ≠ lastAmp then blip ++ [(time, amp - lastAmp)] else blip
    runLoop pattern volume period endTime hp (time + period) ((phase + 1) % 8) amp blip
  else (time, phase, lastAmp, blip)
termination_by endTime - time
decreasing_by omega

/-- `SquareChannel::run`. -/
def run (s : SquareChannel) (start_time end_time : Nat) : SquareChannel :=
  if h : ¬s.active ∨ s.period = 0 then
    if s.last_amp ≠ 0 then
      { s with blip := s.blip ++ [(start_time, -s.last_amp)], last_amp := 0, delay := 0 }
    else s
  else
    have hp : 0 < s.period := by
      rcases Nat.eq_zero_or_pos s.period with h0 | h0
      · exact absurd (Or.inr h0) h
      · exact h0
    let r := runLoop (WAVE_PATTERN s.duty) (Int.ofNat s.volume_envelope.volume) s.period
      end_time hp (start_time + s.delay) s.phase s.last_amp s.blip
    { s with delay := r.1 - end_time, phase := r.2.1, last_amp := r.2.2.1, blip := r.2.2.2 }

end SquareChannel

/-- `WaveChannel` (src/sound.rs). -/
structure WaveChannel where
  active : Bool
  dac_enabled : Bool
  length : LengthCounter
  frequency : Nat
  period : Nat
  last_amp : Int
  delay : Nat
  volume_shift : Nat
  waveram : List Nat
  current_wave : Nat
  dmg_mode : Bool
  sample_recently_accessed : Bool
  blip : List (Nat × Int)
deriving DecidableEq, Repr

namespace WaveChannel

/-- `WaveChannel::new`. -/
def new (dmg_mode : Bool) : WaveChannel :=
  { active := false, dac_enabled := false, length := LengthCounter.new 256,
    frequency := 0, period := 2048, last_amp := 0, delay := 0, volume_shift := 0,
    waveram := List.replicate 16 0, current_wave := 0, dmg_mode := dmg_mode,
    sample_recently_accessed := false, blip := [] }

/-- `WaveChannel::calculate_period` (note: the wave channel compares with
2048, the squares with 2047 — as in the source). -/
def calculate_period (s : WaveChannel) : WaveChannel :=
  { s with period := (if s.frequency > 2048 then 0 else (2048 - s.frequency) * 2) }

/-- `WaveChannel::step_length`. -/
def step_length (s : WaveChannel) : WaveChannel :=
  let s := { s with length := s.length.step }
  { s with active := s.active && s.length.is_active }

/-- `WaveChannel::dmg_maybe_corrupt_waveram`. -/
def dmg_maybe_corrupt_waveram (s : WaveChannel) : WaveChannel :=
  if ¬s.dmg_mode ∨ ¬s.active ∨ s.delay ≠ 0 then s
  else
    let byteindex := ((s.current_wave + 1) % 32) / 2
    if byteindex < 4 then
      { s with waveram := s.waveram.set 0 (s.waveram.getD byteindex 0) }
    else
      let blockstart := byteindex &&& 0b1100
      { s with waveram :=
        ((((s.waveram.set 0 (s.waveram.getD blockstart 0)).set 1
          (s.waveram.getD (blockstart + 1) 0)).set 2
          (s.waveram.getD (blockstart + 2) 0)).set 3
          (s.waveram.getD (blockstart + 3) 0)) }

/-- `WaveChannel::wb`. -/
def wb (s : WaveChannel) (a v frame_step : Nat) : WaveChannel :=
  if a = 0xFF1A then
    let dac := v &&& 0x80 = 0x80
    { s with dac_enabled := dac, active := s.active && dac }
  else if a = 0xFF1B then { s with length := s.length.set v }
  else if a = 0xFF1C then { s with volume_shift := (v >>> 5) &&& 0b11 }
  else if a = 0xFF1D then
    ({ s with frequency := (s.frequency &&& 0x0700) ||| v }).calculate_period
  else if a = 0xFF1E then
    let s := ({ s with
      frequency := (s.frequency &&& 0x00FF) ||| ((v &&& 0b111) <<< 8) }).calculate_period
    let s := { s with length := s.length.enable (v &&& 0x40 = 0x40) frame_step }
    let s := { s with active := s.active && s.length.is_active }
    if v &&& 0x80 = 0x80 then
      let s := s.dmg_maybe_corrupt_waveram
      let s := { s with length := s.length.trigger frame_step }
      let s := { s with current_wave := 0, delay := s.period + 4 }
      if s.dac_enabled then { s with active := true } else s
    else s
  else if 0xFF30 ≤ a ∧ a ≤ 0xFF3F then
    if ¬s.active then { s with waveram := s.waveram.set (a - 0xFF30) v }
    else if ¬s.dmg_mode ∨ s.sample_recently_accessed then
      { s with waveram := s.waveram.set (s.current_wave / 2) v }
    else s
  else s

/-- The `volshift` table of `WaveChannel::run`.  `volume_shift` is always
written masked to two bits, so the source's `unreachable!()` arm cannot
fire; it is mapped to 0 here. -/
def volshiftOf (volume_shift : Nat) : Nat :=
  if volume_shift = 0 then 4 + 2
  else if volume_shift = 1 then 0
  else if volume_shift = 2 then 1
  else if volume_shift = 3 then 2
  else 0

/-- The `while time < end_time` loop of `WaveChannel::run`.  The
`time >= end_time - 2` check is on wrapping `u32` arithmetic, hence the
`2 ≤ endTime` guard in the embedding. -/
def runLoop (waveram : List Nat) (volshift period endTime : Nat) (hp : 0 < period)
    (time cw : Nat) (lastAmp : Int) (sra : Bool) (blip : List (Nat × Int)) :
    Nat × Nat × Int × Bool × List (Nat × Int) :=
  if time < endTime then
    let wavebyte := waveram.getD (cw / 2) 0
    let sample := if cw % 2 = 0 then wavebyte >>> 4 else wavebyte &&& 0xF
    let amp : Int := Int.ofNat ((sample <<< 2) >>> volshift)
    let blip := if amp ≠ lastAmp then blip ++ [(time, amp - lastAmp)] else blip
    let sra := if 2 ≤ endTime ∧ endTime - 2 ≤ time then true else sra
    runLoop waveram volshift period endTime hp (time + period) ((cw + 1) % 32) amp sra blip
  else (time, cw, lastAmp, sra, blip)
termination_by endTime - time
decreasing_by omega

/-- `WaveChannel::run`. -/
def run (s : WaveChannel) (start_time end_time : Nat) : WaveChannel :=
  let s := { s with sample_recently_accessed := false }
  if h : ¬s.active ∨ s.period = 0 then
    if s.last_amp ≠ 0 then
      { s with blip := s.blip ++ [(start_time, -s.last_amp)], last_amp := 0, delay := 0 }
    else s
  else
    have hp : 0 < s.period := by
      rcases Nat.eq_zero_or_pos s.period with h0 | h0
      · exact absurd (Or.inr h0) h
      · exact h0
    let r := runLoop s.waveram (volshiftOf s.volume_shift) s.period end_time hp
      (start_time + s.delay) s.current_wave s.last_amp s.sample_recently_accessed s.blip
    { s with delay := r.1 - end_time, current_wave := r.2.1, last_amp := r.2.2.1,
             sample_recently_accessed := r.2.2.2.1, blip := r.2.2.2.2 }

end WaveChannel

/-- `NoiseChannel` (src/sound.rs). -/
structure NoiseChannel where
  active : Bool
  dac_enabled : Bool
  reg_ff22 : Nat
  length : LengthCounter
  volume_envelope : VolumeEnvelope
  period : Nat
  shift_width : Nat
  state : Nat
  delay : Nat
  last_amp : Int
  blip : List (Nat × Int)
deriving DecidableEq, Repr

namespace NoiseChannel

/-- `NoiseChannel::new`. -/
def new : NoiseChannel :=
  { active := false, dac_enabled := false, reg_ff22 := 0,
    length := LengthCounter.new 64, volume_envelope := VolumeEnvelope.new,
    period := 2048, shift_width := 14, state := 1, delay := 0, last_amp := 0, blip := [] }

/-- `NoiseChannel::wb`. -/
def wb (s : NoiseChannel) (a v frame_step : Nat) : NoiseChannel :=
  let s :=
    if a = 0xFF20 then { s with length := s.length.set (v &&& 0x3F) }
    else if a = 0xFF21 then
      let dac := ¬(v &&& 0xF8 = 0)
      { s with dac_enabled := dac, active := s.active && dac }
    else if a = 0xFF22 then
      let freq_div := if v &&& 7 = 0 then 8 else (v &&& 7) * 16
      { s with reg_ff22 := v
               shift_width := (if v &&& 8 = 8 then 6 else 14)
               period := freq_div <<< (v >>> 4) }
    else if a = 0xFF23 then
      let s := { s with length := s.length.enable (v &&& 0x40 = 0x40) frame_step }
      let s := { s with active := s.active && s.length.is_active }
      if v &&& 0x80 = 0x80 then
        let s := { s with length := s.length.trigger frame_step }
        let s := { s with state := 0xFF, delay := 0 }
        if s.dac_enabled then { s with active := true } else s
      else s
    else s
  { s with volume_envelope := s.volume_envelope.wb a v }

/-- The LFSR loop of `NoiseChannel::run`.  The source has no `period = 0`
guard: `period` is 2048 initially and `freq_div << shift ≥ 8` after any
FF22 write, so the loop always advances; `hp` carries that invariant. -/
def runLoop (shiftWidth volume period endTime : Nat) (hp : 0 < period)
    (time st : Nat) (lastAmp : Int) (blip : List (Nat × Int)) :
    Nat × Nat × Int × List (Nat × Int) :=
  if time < endTime then
    let st1 := (st <<< 1) % 0x10000
    let bit := ((st >>> shiftWidth) ^^^ (st1 >>> shiftWidth)) &&& 1
    let st2 := st1 ||| bit
    let amp : Int := if (st >>> shiftWidth) &&& 1 = 0 then -(Int.ofNat volume)
      else Int.ofNat volume
    let blip := if lastAmp ≠ amp then blip ++ [(time, amp - lastAmp)] else blip
    runLoop shiftWidth volume period endTime hp (time + period) st2 amp blip
  else (time, st, lastAmp, blip)
termination_by endTime - time
decreasing_by omega

/-- `NoiseChannel::run`.  For an (unreachable) `active` state with
`period = 0` the Rust loop would never terminate; the embedding returns
the state unchanged there and the theorems assume `period ≠ 0`. -/
def run (s : NoiseChannel) (start_time end_time : Nat) : NoiseChannel :=
  if s.active then
    if hp : 0 < s.period then
      let r := runLoop s.shift_width s.volume_envelope.volume s.period end_time hp
        (start_time + s.delay) s.state s.last_amp s.blip
      { s with delay := r.1 - end_time, state := r.2.1, last_amp := r.2.2.1, blip := r.2.2.2 }
    else s
  else if s.last_amp ≠ 0 then
    { s with blip := s.blip ++ [(start_time, -s.last_amp)], last_amp := 0, delay := 0 }
  else s

/-- `NoiseChannel::step_length`. -/
def step_length (s : NoiseChannel) : NoiseChannel :=
  let s := { s with length := s.length.step }
  { s with active := s.active && s.length.is_active }

end NoiseChannel

/-- `CLOCKS_PER_FRAME = CLOCKS_PER_SECOND / 512 = 8192`. -/
def CLOCKS_PER_FRAME : Nat := (1 <<< 22) / 512

/-- The sound unit (src/sound.rs).  `isOn` is the source's `on` flag
(renamed: `on` is notation in Lean).  The host-side fields
(`output_period`, `need_sync`, `player`) are carried but only `wb`/`run`
behaviour is embedded. -/
structure Sound where
  isOn : Bool
  time : Nat
  prev_time : Nat
  next_time : Nat
  frame_step : Nat
  output_period : Nat
  channel1 : SquareChannel
  channel2 : SquareChannel
  channel3 : WaveChannel
  channel4 : NoiseChannel
  volume_left : Nat
  volume_right : Nat
  reg_vin_to_so : Nat
  reg_ff25 : Nat
  need_sync : Bool
  dmg_mode : Bool
deriving DecidableEq, Repr

namespace Sound

/-- `Sound::create` (sans the blip buffers and host player). -/
def create (output_period : Nat) (dmg_mode : Bool) : Sound :=
  { isOn := false, time := 0, prev_time := 0, next_time := CLOCKS_PER_FRAME,
    frame_step := 0, output_period := output_period,
    channel1 := SquareChannel.new true, channel2 := SquareChannel.new false,
    channel3 := WaveChannel.new dmg_mode, channel4 := NoiseChannel.new,
    volume_left := 7, volume_right := 7, reg_vin_to_so := 0, reg_ff25 := 0,
    need_sync := false, dmg_mode := dmg_mode }

/-- One iteration of the `while next_time <= time` loop in `Sound::run`:
advance all channels over the frame, clock length (even steps), sweep
(steps 2 and 6), envelope (step 7), then advance the frame counters. -/
def runFrame (s : Sound) : Sound :=
  let s := { s with
    channel1 := s.channel1.run s.prev_time s.next_time
    channel2 := s.channel2.run s.prev_time s.next_time
    channel3 := s.channel3.run s.prev_time s.next_time
    channel4 := s.channel4.run s.prev_time s.next_time }
  let s := if s.frame_step % 2 = 0 then
      { s with
        channel1 := s.channel1.step_length
        channel2 := s.channel2.step_length
        channel3 := s.channel3.step_length
        channel4 := s.channel4.step_length }
    else s
  let s := if s.frame_step % 4 = 2 then { s with channel1 := s.channel1.step_sweep } else s
  let s := if s.frame_step = 7 then
      { s with
        channel1 := { s.channel1 with volume_envelope := s.channel1.volume_envelope.step }
        channel2 := { s.channel2 with volume_envelope := s.channel2.volume_envelope.step }
        channel4 := { s.channel4 with volume_envelope := s.channel4.volume_envelope.step } }
    else s
  { s with frame_step := (s.frame_step + 1) % 8, prev_time := s.next_time,
           next_time := s.next_time + CLOCKS_PER_FRAME }

lemma runFrame_time (s : Sound) : (runFrame s).time = s.time := by
  simp only [runFrame]
  split_ifs <;> rfl

lemma runFrame_next_time (s : Sound) : (runFrame s).next_time = s.next_time + CLOCKS_PER_FRAME := by
  simp only [runFrame]
  split_ifs <;> rfl

/-- The `while next_time <= time` catch-up loop of `Sound::run`. -/
def runCatchup (s : Sound) : Sound :=
  if s.next_time ≤ s.time then runCatchup (runFrame s) else s
termination_by s.time + 1 - s.next_time
decreasing_by
  rw [runFrame_time, runFrame_next_time]
  have : 0 < CLOCKS_PER_FRAME := by decide
  omega

/-- `Sound::run`. -/
def run (s : Sound) : Sound :=
  let s := runCatchup s
  if s.prev_time ≠ s.time then
    { s with
      channel1 := s.channel1.run s.prev_time s.time
      channel2 := s.channel2.run s.prev_time s.time
      channel3 := s.channel3.run s.prev_time s.time
      channel4 := s.channel4.run s.prev_time s.time
      prev_time := s.time }
  else s

/-- The register dispatch of `Sound::wb` for every address except 0xFF26
(the power toggle).  The recursive `self.wb(i, 0)` calls from the 0xFF26
arm always target 0xFF10–0xFF25 with the unit still on, where the full
`wb` is exactly run-then-dispatch, so the toggle arm below uses this
dispatch and never re-enters itself. -/
def wbDispatch (s : Sound) (a v : Nat) : Sound :=
  if 0xFF10 ≤ a ∧ a ≤ 0xFF14 then { s with channel1 := s.channel1.wb a v s.frame_step }
  else if 0xFF16 ≤ a ∧ a ≤ 0xFF19 then { s with channel2 := s.channel2.wb a v s.frame_step }
  else if (0xFF1A ≤ a ∧ a ≤ 0xFF1E) ∨ (0xFF30 ≤ a ∧ a ≤ 0xFF3F) then
    { s with channel3 := s.channel3.wb a v s.frame_step }
  else if 0xFF20 ≤ a ∧ a ≤ 0xFF23 then { s with channel4 := s.channel4.wb a v s.frame_step }
  else if a = 0xFF24 then
    { s with volume_left := v &&& 0x7, volume_right := (v >>> 4) &&& 0x7,
             reg_vin_to_so := v &&& 0x88 }
  else if a = 0xFF25 then { s with reg_ff25 := v }
  else s

/-- The `for i in 0xFF10..=0xFF25 { self.wb(i, 0) }` loop of the 0xFF26
arm: each inner `wb` is run-then-dispatch (see `wbDispatch`). -/
def wbZeroAll (s : Sound) : Sound :=
  (List.range' 0xFF10 0x16).foldl (fun t i => wbDispatch (run t) i 0) s

/-- `Sound::wb`. -/
def wb (s : Sound) (a v : Nat) : Sound :=
  let proceed : Sound → Sound := fun s =>
    let s := run s
    if a = 0xFF26 then
      let turn_on := v &&& 0x80 = 0x80
      let s1 := if s.isOn ∧ ¬turn_on then wbZeroAll s else s
      let s2 := if ¬s.isOn ∧ turn_on then { s1 with frame_step := 0 } else s1
      { s2 with isOn := turn_on }
    else wbDispatch s a v
  if ¬s.isOn then
    let s :=
      if s.dmg_mode then
        if a = 0xFF11 then { s with channel1 := s.channel1.wb a (v &&& 0x3F) s.frame_step }
        else if a = 0xFF16 then { s with channel2 := s.channel2.wb a (v &&& 0x3F) s.frame_step }
        else if a = 0xFF1B then { s with channel3 := s.channel3.wb a v s.frame_step }
        else if a = 0xFF20 then { s with channel4 := s.channel4.wb a (v &&& 0x3F) s.frame_step }
        else s
      else s
    if a ≠ 0xFF26 then s else proceed s
  else proceed s

lemma runFrame_prev_time (s : Sound) : (runFrame s).prev_time = s.next_time := by
  simp only [runFrame]
  split_ifs <;> rfl

lemma runFrame_isOn (s : Sound) : (runFrame s).isOn = s.isOn := by
  simp only [runFrame]
  split_ifs <;> rfl

lemma runCatchup_spec (s : Sound) :
    (runCatchup s).time = s.time ∧ s.time < (runCatchup s).next_time ∧
    (runCatchup s).isOn = s.isOn := by
  induction s using Sound.runCatchup.induct with
  | case1 s h ih =>
    rw [runCatchup, if_pos h]
    refine ⟨?_, ?_, ?_⟩
    · rw [ih.1, runFrame_time]
    · have := ih.2.1
      rwa [runFrame_time] at this
    · rw [ih.2.2, runFrame_isOn]
  | case2 s h =>
    rw [runCatchup, if_neg h]
    exact ⟨rfl, by omega, rfl⟩

/-- `Sound::run` leaves `time` in place, re-synchronises `prev_time` with
it, leaves `next_time` strictly ahead, and does not touch the power
flag. -/
lemma run_spec (s : Sound) :
    (run s).time = s.time ∧ (run s).prev_time = (run s).time ∧
    (run s).time < (run s).next_time ∧ (run s).isOn = s.isOn := by
  obtain ⟨hct, hcn, hco⟩ := runCatchup_spec s
  simp only [run]
  by_cases h : (runCatchup s).prev_time ≠ (runCatchup s).time
  · rw [if_pos h]
    exact ⟨hct, rfl, by simpa [hct] using hcn, hco⟩
  · rw [if_neg h]
    push_neg at h
    exact ⟨hct, h, by simpa [hct] using hcn, hco⟩

/-- `Sound::run` is the identity on a quiescent state (`prev_time = time`
and the next frame boundary still ahead). -/
lemma run_id (s : Sound) (h1 : s.prev_time = s.time) (h2 : s.time < s.next_time) :
    run s = s := by
  have hc : runCatchup s = s := by
    rw [runCatchup, if_neg (by omega)]
  simp only [run, hc]
  rw [if_neg (by simp [h1])]

lemma wbDispatch_time (t : Sound) (a v : Nat) :
    (wbDispatch t a v).time = t.time ∧ (wbDispatch t a v).prev_time = t.prev_time ∧
    (wbDispatch t a v).next_time = t.next_time := by
  unfold wbDispatch
  split_ifs <;> exact ⟨rfl, rfl, rfl⟩

/-- Inside the 0xFF26 zeroing loop every inner `run` is the identity: the
outer `run` has already made the state quiescent and the dispatches never
touch the time fields. -/
lemma foldl_wb_run_elim (l : List Nat) (t : Sound) (h1 : t.prev_time = t.time)
    (h2 : t.time < t.next_time) :
    l.foldl (fun u i => wbDispatch (run u) i 0) t = l.foldl (fun u i => wbDispatch u i 0) t := by
  induction l generalizing t with
  | nil => rfl
  | cons a l ih =>
    simp only [List.foldl_cons]
    rw [run_id t h1 h2]
    obtain ⟨ha, hb, hc⟩ := wbDispatch_time t a 0
    exact ih _ (by rw [hb, ha, h1]) (by rw [ha, hc]; exact h2)

set_option maxRecDepth 4000 in
/-- Writing 0 through the dispatch to every register 0xFF10–0xFF25 leaves
all register-backing fields zeroed (length counters reloaded to `max`,
periods recomputed) and every channel inactive with its DAC off. -/
lemma wbZeroAll_fields (t : Sound) (h1 : t.prev_time = t.time) (h2 : t.time < t.next_time) :
    (wbZeroAll t).channel1.sweep_period = 0 ∧ (wbZeroAll t).channel1.sweep_shift = 0 ∧
    (wbZeroAll t).channel1.sweep_negate = false ∧ (wbZeroAll t).channel1.duty = 0 ∧
    (wbZeroAll t).channel1.frequency = 0 ∧ (wbZeroAll t).channel1.length.enabled = false ∧
    (wbZeroAll t).channel1.volume_envelope.period = 0 ∧
    (wbZeroAll t).channel1.volume_envelope.goes_up = false ∧
    (wbZeroAll t).channel1.volume_envelope.initial_volume = 0 ∧
    (wbZeroAll t).channel1.volume_envelope.volume = 0 ∧
    (wbZeroAll t).channel1.active = false ∧ (wbZeroAll t).channel1.dac_enabled = false ∧
    (wbZeroAll t).channel2.duty = 0 ∧ (wbZeroAll t).channel2.frequency = 0 ∧
    (wbZeroAll t).channel2.length.enabled = false ∧
    (wbZeroAll t).channel2.volume_envelope.period = 0 ∧
    (wbZeroAll t).channel2.volume_envelope.goes_up = false ∧
    (wbZeroAll t).channel2.volume_envelope.initial_volume = 0 ∧
    (wbZeroAll t).channel2.volume_envelope.volume = 0 ∧
    (wbZeroAll t).channel2.active = false ∧ (wbZeroAll t).channel2.dac_enabled = false ∧
    (wbZeroAll t).channel3.dac_enabled = false ∧ (wbZeroAll t).channel3.volume_shift = 0 ∧
    (wbZeroAll t).channel3.frequency = 0 ∧ (wbZeroAll t).channel3.length.enabled = false ∧
    (wbZeroAll t).channel3.active = false ∧
    (wbZeroAll t).channel4.reg_ff22 = 0 ∧ (wbZeroAll t).channel4.shift_width = 14 ∧
    (wbZeroAll t).channel4.period = 8 ∧ (wbZeroAll t).channel4.length.enabled = false ∧
    (wbZeroAll t).channel4.volume_envelope.period = 0 ∧
    (wbZeroAll t).channel4.volume_envelope.goes_up = false ∧
    (wbZeroAll t).channel4.volume_envelope.initial_volume = 0 ∧
    (wbZeroAll t).channel4.volume_envelope.volume = 0 ∧
    (wbZeroAll t).channel4.active = false ∧ (wbZeroAll t).channel4.dac_enabled = false ∧
    (wbZeroAll t).volume_left = 0 ∧ (wbZeroAll t).volume_right = 0 ∧
    (wbZeroAll t).reg_vin_to_so = 0 ∧ (wbZeroAll t).reg_ff25 = 0 ∧
    (wbZeroAll t).isOn = t.isOn := by
  unfold wbZeroAll
  rw [show List.range' 0xFF10 0x16 = [0xFF10, 0xFF11, 0xFF12, 0xFF13, 0xFF14, 0xFF15,
    0xFF16, 0xFF17, 0xFF18, 0xFF19, 0xFF1A, 0xFF1B, 0xFF1C, 0xFF1D, 0xFF1E, 0xFF1F,
    0xFF20, 0xFF21, 0xFF22, 0xFF23, 0xFF24, 0xFF25] from rfl]
  rw [foldl_wb_run_elim _ _ h1 h2]
  simp [wbDispatch, SquareChannel.wb, WaveChannel.wb, NoiseChannel.wb, VolumeEnvelope.wb,
    LengthCounter.set, LengthCounter.enable, LengthCounter.trigger, LengthCounter.step,
    LengthCounter.is_active, LengthCounter.extra_step, SquareChannel.calculate_period,
    WaveChannel.calculate_period, WaveChannel.dmg_maybe_corrupt_waveram,
    SquareChannel.sweep_calculate_frequency, Nat.and_assoc,
    show (0x700 &&& 0xFF : Nat) = 0 from by decide]

end Sound

/-- C6: the 0xFF26 power gate.  (1) Writing 0xFF26 with bit 7 clear while
the unit is on zeroes registers 0xFF10–0xFF25 (all register-backing fields
cleared, channels inactive, DACs off) and turns the unit off.  (2) Writing
0xFF26 with bit 7 set while it is off resets `frame_step` to 0 and turns
it on.  (3) While off, every write to 0xFF10–0xFF25 is ignored — except in
DMG mode the length-only registers 0xFF11/0xFF16/0xFF1B/0xFF20 still take
effect with the value masked to the length bits (part 4).  The
`channel4.period ≠ 0` hypothesis records the invariant under which the
noise-channel catch-up loop terminates in the source. -/
theorem c6_sound_power_gating (s : Sound) (v : Nat) :
    (s.isOn = true → v &&& 0x80 = 0 → s.channel4.period ≠ 0 →
      ((Sound.wb s 0xFF26 v).isOn = false ∧
       (Sound.wb s 0xFF26 v).channel1.sweep_period = 0 ∧
       (Sound.wb s 0xFF26 v).channel1.sweep_shift = 0 ∧
       (Sound.wb s 0xFF26 v).channel1.sweep_negate = false ∧
       (Sound.wb s 0xFF26 v).channel1.duty = 0 ∧
       (Sound.wb s 0xFF26 v).channel1.frequency = 0 ∧
       (Sound.wb s 0xFF26 v).channel1.length.enabled = false ∧
       (Sound.wb s 0xFF26 v).channel1.volume_envelope.period = 0 ∧
       (Sound.wb s 0xFF26 v).channel1.volume_envelope.goes_up = false ∧
       (Sound.wb s 0xFF26 v).channel1.volume_envelope.initial_volume = 0 ∧
       (Sound.wb s 0xFF26 v).channel1.volume_envelope.volume = 0 ∧
       (Sound.wb s 0xFF26 v).channel1.active = false ∧
       (Sound.wb s 0xFF26 v).channel1.dac_enabled = false ∧
       (Sound.wb s 0xFF26 v).channel2.duty = 0 ∧
       (Sound.wb s 0xFF26 v).channel2.frequency = 0 ∧
       (Sound.wb s 0xFF26 v).channel2.length.enabled = false ∧
       (Sound.wb s 0xFF26 v).channel2.volume_envelope.period = 0 ∧
       (Sound.wb s 0xFF26 v).channel2.volume_envelope.goes_up = false ∧
       (Sound.wb s 0xFF26 v).channel2.volume_envelope.initial_volume = 0 ∧
       (Sound.wb s 0xFF26 v).channel2.volume_envelope.volume = 0 ∧
       (Sound.wb s 0xFF26 v).channel2.active = false ∧
       (Sound.wb s 0xFF26 v).channel2.dac_enabled = false ∧
       (Sound.wb s 0xFF26 v).channel3.dac_enabled = false ∧
       (Sound.wb s 0xFF26 v).channel3.volume_shift = 0 ∧
       (Sound.wb s 0xFF26 v).channel3.frequency = 0 ∧
       (Sound.wb s 0xFF26 v).channel3.length.enabled = false ∧
       (Sound.wb s 0xFF26 v).channel3.active = false ∧
       (Sound.wb s 0xFF26 v).channel4.reg_ff22 = 0 ∧
       (Sound.wb s 0xFF26 v).channel4.shift_width = 14 ∧
       (Sound.wb s 0xFF26 v).channel4.period = 8 ∧
       (Sound.wb s 0xFF26 v).channel4.length.enabled = false ∧
       (Sound.wb s 0xFF26 v).channel4.volume_envelope.period = 0 ∧
       (Sound.wb s 0xFF26 v).channel4.volume_envelope.goes_up = false ∧
       (Sound.wb s 0xFF26 v).channel4.volume_envelope.initial_volume = 0 ∧
       (Sound.wb s 0xFF26 v).channel4.volume_envelope.volume = 0 ∧
       (Sound.wb s 0xFF26 v).channel4.active = false ∧
       (Sound.wb s 0xFF26 v).channel4.dac_enabled = false ∧
       (Sound.wb s 0xFF26 v).volume_left = 0 ∧
       (Sound.wb s 0xFF26 v).volume_right = 0 ∧
       (Sound.wb s 0xFF26 v).reg_vin_to_so = 0 ∧
       (Sound.wb s 0xFF26 v).reg_ff25 = 0)) ∧
    (s.isOn = false → v &&& 0x80 = 0x80 →
      (Sound.wb s 0xFF26 v).frame_step = 0 ∧ (Sound.wb s 0xFF26 v).isOn = true) ∧
    (∀ a, s.isOn = false → 0xFF10 ≤ a → a ≤ 0xFF25 →
      (s.dmg_mode = false ∨ (a ≠ 0xFF11 ∧ a ≠ 0xFF16 ∧ a ≠ 0xFF1B ∧ a ≠ 0xFF20)) →
      Sound.wb s a v = s) ∧
    (s.isOn = false → s.dmg_mode = true →
      ((Sound.wb s 0xFF11 v).channel1.length.value
          = s.channel1.length.max - (v &&& 0x3F) ∧
       (Sound.wb s 0xFF16 v).channel2.length.value
          = s.channel2.length.max - (v &&& 0x3F) ∧
       (Sound.wb s 0xFF1B v).channel3.length.value = s.channel3.length.max - v ∧
       (Sound.wb s 0xFF20 v).channel4.length.value
          = s.channel4.length.max - (v &&& 0x3F))) := by
  obtain ⟨hrt, hrp, hrn, hro⟩ := Sound.run_spec s
  refine ⟨?_, ?_, ?_, ?_⟩
  · intro hOn hv _hper
    have hturn : ¬(v &&& 0x80 = 0x80) := by omega
    obtain ⟨z1, z2, z3, z4, z5, z6, z7, z8, z9, z10, z11, z12, z13, z14, z15, z16, z17,
      z18, z19, z20, z21, z22, z23, z24, z25, z26, z27, z28, z29, z30, z31, z32, z33,
      z34, z35, z36, z37, z38, z39, z40, z41⟩ :=
      Sound.wbZeroAll_fields (Sound.run s) hrp (hrt ▸ hrn)
    simp only [Sound.wb]
    simp [hOn, hro, hturn, z1, z2, z3, z4, z5, z6, z7, z8, z9, z10, z11, z12, z13, z14,
      z15, z16, z17, z18, z19, z20, z21, z22, z23, z24, z25, z26, z27, z28, z29, z30,
      z31, z32, z33, z34, z35, z36, z37, z38, z39, z40]
  · intro hOff hbit
    simp only [Sound.wb]
    simp [hOff, hro, hbit]
  · intro a hOff ha hb hnot
    have hne26 : ¬(a = 0xFF26) := by omega
    simp only [Sound.wb]
    rcases hnot with h | ⟨h11, h16, h1b, h20⟩
    · simp [hOff, h, hne26]
    · simp [hOff, h11, h16, h1b, h20, hne26]
  · intro hOff hdmg
    refine ⟨?_, ?_, ?_, ?_⟩ <;>
      · simp only [Sound.wb]
        simp [hOff, hdmg, SquareChannel.wb, WaveChannel.wb, NoiseChannel.wb,
          LengthCounter.set, VolumeEnvelope.wb, Nat.and_assoc,
          show (0x3F &&& 0x3F : Nat) = 0x3F from by decide]

/-- C6 witness: the power-gating theorem applied at concrete states — a
fresh DMG unit switched on for the power-off write, and a fresh (off) unit
for the power-on write, the ignored write (0xFF12) and the DMG length-only
write (0xFF11 with value 0xFF, length bits 0x3F, so the counter reloads to
64 − 63 = 1). -/
theorem c6_witness :
    (Sound.wb { Sound.create 100 true with isOn := true } 0xFF26 0).isOn = false ∧
    (Sound.wb { Sound.create 100 true with isOn := true } 0xFF26 0).channel1.sweep_period = 0 ∧
    (Sound.wb (Sound.create 100 true) 0xFF26 0x80).frame_step = 0 ∧
    Sound.wb (Sound.create 100 true) 0xFF12 0xFF = Sound.create 100 true ∧
    (Sound.wb (Sound.create 100 true) 0xFF11 0xFF).channel1.length.value = 1 := by
  have h1 := (c6_sound_power_gating { Sound.create 100 true with isOn := true } 0).1
    rfl rfl (by decide)
  have h2 := (c6_sound_power_gating (Sound.create 100 true) 0x80).2.1 rfl rfl
  have h3 := (c6_sound_power_gating (Sound.create 100 true) 0xFF).2.2.1 0xFF12 rfl
    (by norm_num) (by norm_num) (Or.inr ⟨by norm_num, by norm_num, by norm_num, by norm_num⟩)
  have h4 := ((c6_sound_power_gating (Sound.create 100 true) 0xFF).2.2.2 rfl rfl).1
  refine ⟨h1.1, h1.2.1, h2.1, h3, ?_⟩
  rw [h4]
  decide

end Craneboy
